import Mathlib

set_option linter.unusedVariables false

/-
Verification of the per-instance evaluation pipeline of
src/swe-factory/evaluation/run_evaluation.py against its specification.

The Python module is shallowly embedded as pure Lean functions:
  - docker / filesystem effects performed by one pipeline invocation are
    abstracted into an oracle (`Env`) that fixes the result of each effectful
    step, an explicit durable state (`TaskFS`, the per-(task, submitter)
    artifact directory) and an operation trace (`Trace`);
  - string scraping (Python `in` and `re.search`) is embedded as executable
    character-list scanning;
  - the helper functions `cleanup_container`, `remove_image` and
    `should_remove` live in `docker_utils`, which is not part of the sources;
    they are modelled from the spec where needed (marked in doc comments).
-/

/- ### Marker strings (run_evaluation.py lines 40-41) -/

def APPLY_PATCH_FAIL : String := ">>>>> Patch Apply Failed"

def APPLY_PATCH_PASS : String := ">>>>> Patch Apply Passed"

/- ### Substring scanning: Python `sub in s` -/

/-- Whether `pat` occurs as a contiguous substring of `s` (Python `pat in s`). -/
def hasSubstr (pat : List Char) : List Char → Bool
  | [] => pat.isEmpty
  | c :: rest => pat.isPrefixOf (c :: rest) || hasSubstr pat rest

/-- Python `pat in s` on strings. -/
def strContains (s pat : String) : Bool := hasSubstr pat.data s.data

/- ### The exit-code regular expression (run_evaluation.py line 124)

`EXIT_CODE_RE = re.compile(r"echo OMNIGRIL_EXIT_CODE=(\d)")`, used with
`re.search`, i.e. leftmost match.  `Char.isDigit` stands in for `\d`
(the captured outputs are ASCII). -/

def exitMarker : List Char := "echo OMNIGRIL_EXIT_CODE=".data

/-- Does the pattern `echo OMNIGRIL_EXIT_CODE=(\d)` match at the very start of
`s`?  If so, return the captured digit. -/
def digitAfterMarker (s : List Char) : Option Char :=
  if exitMarker.isPrefixOf s then
    match s.drop exitMarker.length with
    | c :: _ => if c.isDigit then some c else none
    | [] => none
  else none

/-- Leftmost match of `echo OMNIGRIL_EXIT_CODE=(\d)` in `s`; the captured
digit of the first match, as `re.search` returns it. -/
def findExitDigit : List Char → Option Char
  | [] => none
  | c :: rest =>
    match digitAfterMarker (c :: rest) with
    | some d => some d
    | none => findExitDigit rest

/- ### Data model -/

/-- Result of a `container.exec_run` call: exit code plus decoded output. -/
structure ExecResult where
  exit_code : Int
  output : String
deriving DecidableEq

/-- A prediction dict: `model_name_or_path`, `model_patch`, `instance_id`.
`model_patch` is `none` when the JSON value is `null`. -/
structure Prediction where
  instance_id : String
  model_patch : Option String
  model_name_or_path : String
deriving DecidableEq

/-- The fields of `TestSpec` (from `test_spec.py`, consumed opaquely) that
`run_evaluation.py` reads. -/
structure TestSpec where
  instance_id : String
  patch : Option String
  eval_script : String
  instance_image_key : String
deriving DecidableEq

/-- One dataset row as used by `make_run_report` / `get_dataset_from_preds`:
its `instance_id` and `str(instance["version"])`. -/
structure TaskInstance where
  instance_id : String
  version : String
deriving DecidableEq

/-- The per-instance entry of the `report.json` map built by
`get_pred_report`. -/
structure PredReport where
  patch_is_None : Bool
  patch_exists : Bool
  patch_successfully_applied : Bool
  resolved : Bool
deriving DecidableEq

/- ### get_pred_report (run_evaluation.py lines 73-138)

The Python function reads two files (the test output and
`run_instance_after_apply.log`); the embedding receives their contents
directly, `none` standing for a missing file (which the code turns into the
empty string after a printed warning).  The function is total: every branch,
including absent files and absent markers, produces a report. -/

def get_pred_report (prediction : Prediction) (test_output : Option String)
    (run_instance_log : Option String) : PredReport :=
  let report0 : PredReport :=
    { patch_is_None := false, patch_exists := false
      patch_successfully_applied := false, resolved := false }
  match prediction.model_patch with
  | none => { report0 with patch_is_None := true }
  | some _ =>
    let report1 := { report0 with patch_exists := true }
    let test_output_content := test_output.getD ""
    let run_instance_log_content := run_instance_log.getD ""
    let report2 :=
      if run_instance_log_content ≠ "" then
        if strContains run_instance_log_content APPLY_PATCH_PASS then
          { report1 with patch_successfully_applied := true }
        else if strContains run_instance_log_content APPLY_PATCH_FAIL then
          { report1 with patch_successfully_applied := false }
        else
          report1
      else
        report1
    if test_output_content ≠ "" then
      match findExitDigit test_output_content.data with
      | some exit_code => if exit_code = '0' then { report2 with resolved := true } else report2
      | none => report2
    else
      report2

example :
    get_pred_report { instance_id := "i", model_patch := none, model_name_or_path := "m" }
      (some "echo OMNIGRIL_EXIT_CODE=0") (some "x") =
    { patch_is_None := true, patch_exists := false
      patch_successfully_applied := false, resolved := false } := by decide

example :
    (get_pred_report { instance_id := "i", model_patch := some "d", model_name_or_path := "m" }
      (some "ok echo OMNIGRIL_EXIT_CODE=0 done")
      (some (">>>>> Patch Apply Passed:\nout"))) =
    { patch_is_None := false, patch_exists := true
      patch_successfully_applied := true, resolved := true } := by decide

example :
    (get_pred_report { instance_id := "i", model_patch := some "d", model_name_or_path := "m" }
      (some "echo OMNIGRIL_EXIT_CODE=1 then echo OMNIGRIL_EXIT_CODE=0")
      (some "")).resolved = false := by decide

/- ### Pipeline state, oracle and trace -/

/-- Durable artifacts in one task's log directory
`output_path/run_id/model_name_or_path/instance_id/`.  File contents are
`none` when the file does not exist. -/
structure TaskFS where
  report : Option PredReport := none
  prev_output : Option String := none
  after_output : Option String := none
  patch_diff : Option String := none
  eval_sh : Option String := none
  test_output : Option String := none
  run_prev_log : String := ""
  run_after_log : String := ""
  run_instance_log : String := ""
deriving DecidableEq

/-- Trace of container-engine operations performed by one invocation. -/
structure Trace where
  created : Bool := false
  releases : Nat := 0
  image_removals : Nat := 0
  docker_ops : Nat := 0
  strict_attempts : Nat := 0
  fuzzy_attempts : Nat := 0
  eval_started : Bool := false
deriving DecidableEq

def emptyTrace : Trace := {}

/-- Fault-injection oracle for one pipeline invocation: the outcome of each
effectful step.  A `false` / `none` entry means that step raises. -/
structure Env where
  setup_ok : Bool := true
  build_ok : Bool := true
  start_ok : Bool := true
  container_id : String := "c0"
  copy_patch_ok : Bool := true
  git_apply : Option ExecResult := some { exit_code := 0, output := "" }
  fuzzy_apply : Option ExecResult := some { exit_code := 0, output := "" }
  copy_eval_ok : Bool := true
  git_diff : Option String := some ""
  eval_exec : Option String := some ""
  grade_ok : Bool := true
deriving DecidableEq

/-- An exception travelling through the try block: either the typed
`EvaluationError` (whose message is printed and logged) or any other
exception. -/
inductive PipeErr where
  | evalError (msg : String)
  | exn
deriving DecidableEq

/-- Observable outcome of one `run_instance_setup` / `run_instance`
invocation: the Python return value (`none` when an exception was swallowed
by the except blocks), the durable state, the engine trace, the caught
exception (printed as a diagnostic), and whether an exception escaped the
function (possible only before the try block). -/
structure SetupOut where
  ret : Option (String × Option PredReport)
  fs : TaskFS
  tr : Trace
  err : Option PipeErr
  escaped : Bool
deriving DecidableEq

/-- Modelled from the spec: `cleanup_container` is defined in `docker_utils`,
which is not under src/.  Per the spec, release "stops and removes the
container unconditionally" and "must be safe to call with a
partially-initialized or null resource (no-op)". -/
def cleanup_container (container : Option Unit) (tr : Trace) : Trace :=
  match container with
  | none => tr
  | some _ => { tr with releases := tr.releases + 1, docker_ops := tr.docker_ops + 2 }

/-- Modelled from the spec: `remove_image` is defined in `docker_utils`,
which is not under src/; it removes the backing instance image. -/
def remove_image (tr : Trace) : Trace :=
  { tr with image_removals := tr.image_removals + 1, docker_ops := tr.docker_ops + 1 }

/-- Modelled from the spec: `should_remove` is defined in `docker_utils`,
which is not under src/.  The cache-level policy has tiers
none/base/env/instance; images "above" the cache level are removed, so an
instance-level image survives the run exactly when the cache level is
`instance`. -/
def should_remove_instance_image (cache_level : String) : Bool :=
  cache_level ≠ "instance"

/-- The Python logger writes to `run_instance_prev_apply.log` in
`not_apply_patch` mode and `run_instance_after_apply.log` otherwise
(run_evaluation.py line 185). -/
inductive Mode where
  | not_apply_patch
  | apply_patch
deriving DecidableEq

/-- Append one `logger.info` line to the mode's log file. -/
def pipeLog (mode : Mode) (line : String) (fs : TaskFS) : TaskFS :=
  match mode with
  | Mode.not_apply_patch => { fs with run_prev_log := fs.run_prev_log ++ line ++ "\n" }
  | Mode.apply_patch => { fs with run_after_log := fs.run_after_log ++ line ++ "\n" }

/-- Write the test output to `test_output_prev_apply.txt` or
`test_output_after_apply.txt` depending on mode (lines 249-252). -/
def writeTestOutput (mode : Mode) (out : String) (fs : TaskFS) : TaskFS :=
  match mode with
  | Mode.not_apply_patch => { fs with prev_output := some out }
  | Mode.apply_patch => { fs with after_output := some out }

/-- Intermediate result of the try block: the pending exception or return
value, plus the updated durable state and trace. -/
abbrev BodyOut := Except PipeErr (Option PredReport) × TaskFS × Trace

/- ### run_instance_setup (run_evaluation.py lines 140-291) -/

/-- Lines 239-273 of `run_instance_setup`: write and copy the eval script,
run it under the timeout, persist the output, and (in `apply_patch` mode
only) grade and durably write `report.json`. -/
def execStage (env : Env) (spec : TestSpec) (pred : Prediction) (mode : Mode)
    (fs : TaskFS) (tr : Trace) : BodyOut :=
  let fs := { fs with eval_sh := some spec.eval_script }
  let fs := pipeLog mode ("Eval script for " ++ spec.instance_id ++
    " written, now applying to container...") fs
  let tr := { tr with docker_ops := tr.docker_ops + 1 }
  if env.copy_eval_ok = false then (Except.error PipeErr.exn, fs, tr) else
  let tr := { tr with eval_started := true, docker_ops := tr.docker_ops + 1 }
  match env.eval_exec with
  | none => (Except.error PipeErr.exn, fs, tr)
  | some test_output =>
    let fs := writeTestOutput mode test_output fs
    let fs := pipeLog mode ("Test output for " ++ spec.instance_id ++ " written") fs
    match mode with
    | Mode.not_apply_patch => (Except.ok none, fs, tr)
    | Mode.apply_patch =>
      let fs := pipeLog mode ("Grading answer for " ++ spec.instance_id ++ "...") fs
      if env.grade_ok = false then (Except.error PipeErr.exn, fs, tr) else
      let report := get_pred_report pred (some test_output) (some fs.run_after_log)
      let fs := pipeLog mode "report computed" fs
      let fs := { fs with report := some report }
      (Except.ok (some report), fs, tr)

/-- Lines 210-236 of `run_instance_setup`: in `apply_patch` mode, one strict
`git apply` attempt, then on non-zero exit one fuzzy
`patch --batch --fuzz=5` attempt; a second non-zero exit raises
`EvaluationError` whose message holds the fuzzy attempt's output. -/
def patchStage (env : Env) (spec : TestSpec) (pred : Prediction) (mode : Mode)
    (fs : TaskFS) (tr : Trace) : BodyOut :=
  match mode with
  | Mode.not_apply_patch => execStage env spec pred mode fs tr
  | Mode.apply_patch =>
    let tr := { tr with strict_attempts := tr.strict_attempts + 1,
                        docker_ops := tr.docker_ops + 1 }
    match env.git_apply with
    | none => (Except.error PipeErr.exn, fs, tr)
    | some val =>
      if val.exit_code ≠ 0 then
        let fs := pipeLog mode "Failed to apply patch to container, trying again..." fs
        let tr := { tr with fuzzy_attempts := tr.fuzzy_attempts + 1,
                            docker_ops := tr.docker_ops + 1 }
        match env.fuzzy_apply with
        | none => (Except.error PipeErr.exn, fs, tr)
        | some val2 =>
          if val2.exit_code ≠ 0 then
            let msg := APPLY_PATCH_FAIL ++ ":\n" ++ val2.output
            let fs := pipeLog mode msg fs
            (Except.error (PipeErr.evalError msg), fs, tr)
          else
            let fs := pipeLog mode (APPLY_PATCH_PASS ++ ":\n" ++ val2.output) fs
            execStage env spec pred mode fs tr
      else
        let fs := pipeLog mode (APPLY_PATCH_PASS ++ ":\n" ++ val.output) fs
        execStage env spec pred mode fs tr

/-- The try block of `run_instance_setup` (lines 196-273): build and start
the container, write and copy the patch file, then the patch and exec
stages. -/
def tryBodySetup (env : Env) (spec : TestSpec) (pred : Prediction) (mode : Mode)
    (fs : TaskFS) : BodyOut :=
  let tr := { emptyTrace with docker_ops := 1 }
  if env.build_ok = false then (Except.error PipeErr.exn, fs, tr) else
  let tr := { tr with created := true, docker_ops := tr.docker_ops + 1 }
  if env.start_ok = false then (Except.error PipeErr.exn, fs, tr) else
  let fs := pipeLog mode ("Container for " ++ spec.instance_id ++ " started: " ++
    env.container_id) fs
  let fs := { fs with patch_diff := some (spec.patch.getD "") }
  let fs := pipeLog mode ("Intermediate patch for " ++ spec.instance_id ++
    " written, now applying to container...") fs
  let tr := { tr with docker_ops := tr.docker_ops + 1 }
  if env.copy_patch_ok = false then (Except.error PipeErr.exn, fs, tr) else
  patchStage env spec pred mode fs tr

/-- The except/finally epilogue shared by `run_instance_setup` and
`run_instance` (lines 274-291 resp. 437-454): both except blocks swallow the
exception after printing it, and the finally block always calls
`cleanup_container` (a no-op when the container variable is still None) and,
when `rm_image` was requested, `remove_image`. -/
def finishSetup (instance_id : String) (rm_image : Bool) (body : BodyOut) : SetupOut :=
  match body with
  | (res, fs, tr) =>
    let tr := cleanup_container (if tr.created then some () else none) tr
    let tr := if rm_image then remove_image tr else tr
    match res with
    | Except.ok report => { ret := some (instance_id, report), fs := fs, tr := tr,
                            err := none, escaped := false }
    | Except.error e => { ret := none, fs := fs, tr := tr, err := some e, escaped := false }

/-- Embedding of `run_instance_setup` (lines 140-291).  The path arguments
(`client`, `run_id`, `output_path`, `timeout`) are abstracted into `Env` and
`TaskFS`; `force_rebuild` is threaded but, like in the source, only forwarded
to the container build.  If `report.json` already exists the stored record is
returned before any container interaction (lines 189-191); exceptions in the
pre-try region (mkdir, report parse, logger setup) escape the function
(`setup_ok = false`). -/
def run_instance_setup (env : Env) (spec : TestSpec) (pred : Prediction)
    (rm_image force_rebuild : Bool) (mode : Mode) (fs : TaskFS) : SetupOut :=
  match fs.report with
  | some report => { ret := some (spec.instance_id, some report), fs := fs,
                     tr := emptyTrace, err := none, escaped := false }
  | none =>
    if env.setup_ok = false then
      { ret := none, fs := fs, tr := emptyTrace, err := none, escaped := true }
    else
      finishSetup spec.instance_id rm_image (tryBodySetup env spec pred mode fs)

/- ### run_instance (run_evaluation.py lines 293-454) -/

/-- Append one `logger.info` line to `run_instance.log` (the log file of
`run_instance`, line 333). -/
def runLog (line : String) (fs : TaskFS) : TaskFS :=
  { fs with run_instance_log := fs.run_instance_log ++ line ++ "\n" }

/-- Lines 388-436 of `run_instance`: `git diff` capture, eval script write
and copy, timed execution, output write, then grading.  The grading call
(lines 421-426) passes the keyword arguments `log_path` and
`include_tests_status`, which `get_pred_report` (line 73) does not accept, so
it raises `TypeError` unconditionally; consequently the success path of
`run_instance` is unreachable and `report.json` is never written by it. -/
def runAfterPatch (env : Env) (spec : TestSpec) (pred : Prediction)
    (fs : TaskFS) (tr : Trace) : BodyOut :=
  let tr := { tr with docker_ops := tr.docker_ops + 1 }
  match env.git_diff with
  | none => (Except.error PipeErr.exn, fs, tr)
  | some diff_before =>
    let fs := runLog ("Git diff before:\n" ++ diff_before) fs
    let fs := { fs with eval_sh := some spec.eval_script }
    let fs := runLog ("Eval script for " ++ spec.instance_id ++
      " written, now applying to container...") fs
    let tr := { tr with docker_ops := tr.docker_ops + 1 }
    if env.copy_eval_ok = false then (Except.error PipeErr.exn, fs, tr) else
    let tr := { tr with eval_started := true, docker_ops := tr.docker_ops + 1 }
    match env.eval_exec with
    | none => (Except.error PipeErr.exn, fs, tr)
    | some test_output =>
      let fs := { fs with test_output := some test_output }
      let fs := runLog ("Test output for " ++ spec.instance_id ++ " written") fs
      let fs := runLog ("Grading answer for " ++ spec.instance_id ++ "...") fs
      (Except.error PipeErr.exn, fs, tr)

/-- Lines 360-386 of `run_instance`: the patch is applied unless the
prediction's `model_patch` is the literal string sentinel `"none"`; the
strict/fuzzy two-attempt structure is the same as in `run_instance_setup`. -/
def runPatchStage (env : Env) (spec : TestSpec) (pred : Prediction)
    (fs : TaskFS) (tr : Trace) : BodyOut :=
  if pred.model_patch = some "none" then runAfterPatch env spec pred fs tr else
  let tr := { tr with strict_attempts := tr.strict_attempts + 1,
                      docker_ops := tr.docker_ops + 1 }
  match env.git_apply with
  | none => (Except.error PipeErr.exn, fs, tr)
  | some val =>
    if val.exit_code ≠ 0 then
      let fs := runLog "Failed to apply patch to container, trying again..." fs
      let tr := { tr with fuzzy_attempts := tr.fuzzy_attempts + 1,
                          docker_ops := tr.docker_ops + 1 }
      match env.fuzzy_apply with
      | none => (Except.error PipeErr.exn, fs, tr)
      | some val2 =>
        if val2.exit_code ≠ 0 then
          let msg := APPLY_PATCH_FAIL ++ ":\n" ++ val2.output
          let fs := runLog msg fs
          (Except.error (PipeErr.evalError msg), fs, tr)
        else
          let fs := runLog (APPLY_PATCH_PASS ++ ":\n" ++ val2.output) fs
          runAfterPatch env spec pred fs tr
    else
      let fs := runLog (APPLY_PATCH_PASS ++ ":\n" ++ val.output) fs
      runAfterPatch env spec pred fs tr

/-- The try block of `run_instance` (lines 343-436). -/
def tryBodyRun (env : Env) (spec : TestSpec) (pred : Prediction)
    (fs : TaskFS) : BodyOut :=
  let tr := { emptyTrace with docker_ops := 1 }
  if env.build_ok = false then (Except.error PipeErr.exn, fs, tr) else
  let tr := { tr with created := true, docker_ops := tr.docker_ops + 1 }
  if env.start_ok = false then (Except.error PipeErr.exn, fs, tr) else
  let fs := runLog ("Container for " ++ spec.instance_id ++ " started: " ++
    env.container_id) fs
  let fs := { fs with patch_diff := some (spec.patch.getD "") }
  let fs := runLog ("Intermediate patch for " ++ spec.instance_id ++
    " written, now applying to container...") fs
  let tr := { tr with docker_ops := tr.docker_ops + 1 }
  if env.copy_patch_ok = false then (Except.error PipeErr.exn, fs, tr) else
  runPatchStage env spec pred fs tr

/-- Embedding of `run_instance` (lines 293-454): same report short-circuit,
pre-try escape and except/finally epilogue as `run_instance_setup`. -/
def run_instance (env : Env) (spec : TestSpec) (pred : Prediction)
    (rm_image force_rebuild : Bool) (fs : TaskFS) : SetupOut :=
  match fs.report with
  | some report => { ret := some (spec.instance_id, some report), fs := fs,
                     tr := emptyTrace, err := none, escaped := false }
  | none =>
    if env.setup_ok = false then
      { ret := none, fs := fs, tr := emptyTrace, err := none, escaped := true }
    else
      finishSetup spec.instance_id rm_image (tryBodyRun env spec pred fs)

/- ### run_instance_fail_to_pass (lines 58-71) and run_instances (456-567) -/

/-- Embedding of `run_instance_fail_to_pass` (lines 58-71): one baseline run
with `rm_image=False` in `not_apply_patch` mode, then one patched run with
the caller's `rm_image` and `force_rebuild=False` in `apply_patch` mode, on
the durable state the first run left behind.  If the first call raises an
escaping exception the second is never reached. -/
def run_instance_fail_to_pass (envB envP : Env) (spec : TestSpec) (pred : Prediction)
    (rm_image force_rebuild : Bool) (fs : TaskFS) : SetupOut × Option SetupOut :=
  let r1 := run_instance_setup envB spec pred false force_rebuild Mode.not_apply_patch fs
  if r1.escaped then (r1, none)
  else (r1, some (run_instance_setup envP spec pred rm_image false Mode.apply_patch r1.fs))

/-- Per-run oracle for the scheduler: the fault-injection environments of the
baseline and patched calls and the initial durable state, per instance id. -/
structure SchedEnv where
  envB : String → Env
  envP : String → Env
  fs0 : String → TaskFS

/-- Embedding of `run_instances` (lines 456-567).  One pipeline invocation is
submitted per test spec; the `as_completed` loop catches every exception at
the task boundary (`except Exception: traceback.print_exc(); continue`), so
every submitted task contributes exactly one entry.  In both branches the
`rm_image` argument is the literal `True` (the `should_remove(...)` call is
commented out in the source, lines 509-515 and 542-548), so `cache_level` and
`clean` are accepted but never consulted. -/
def run_instances (se : SchedEnv) (predictions : String → Prediction)
    (specs : List TestSpec) (cache_level : String) (clean force_rebuild : Bool)
    (is_judge_fail2pass : Bool) : List (SetupOut × Option SetupOut) :=
  if is_judge_fail2pass then
    specs.map (fun spec =>
      run_instance_fail_to_pass (se.envB spec.instance_id) (se.envP spec.instance_id)
        spec (predictions spec.instance_id) true force_rebuild (se.fs0 spec.instance_id))
  else
    specs.map (fun spec =>
      (run_instance_setup (se.envP spec.instance_id) spec (predictions spec.instance_id)
        true force_rebuild Mode.apply_patch (se.fs0 spec.instance_id), none))

/- ### get_dataset_from_preds (lines 570-668)

The claims concern the admission/resumability portion (lines 631-668): the
version and explicit-id filters upstream of it are identity on the dataset
the claims quantify over, and the prediction restriction only shrinks keys
that the final membership filter tests anyway. -/

/-- Lines 632-653: a task counts as already run when it has a prediction and
both `test_output_prev_apply.txt` and `test_output_after_apply.txt` exist in
its log directory. -/
def completedId (predictions : String → Option Prediction) (fsOf : String → TaskFS)
    (id : String) : Bool :=
  match predictions id with
  | none => false
  | some _ => (fsOf id).prev_output.isSome && (fsOf id).after_output.isSome

/-- Embedding of the admission logic of `get_dataset_from_preds`
(lines 631-668): drop already-run tasks when `exclude_completed`, then keep
only tasks having a prediction whose `model_patch` is neither empty nor
null. -/
def get_dataset_from_preds (predictions : String → Option Prediction)
    (fsOf : String → TaskFS) (dataset : List TaskInstance)
    (exclude_completed : Bool) : List TaskInstance :=
  let completed_ids :=
    (dataset.filter (fun i => completedId predictions fsOf i.instance_id)).map
      (fun i => i.instance_id)
  let dataset1 :=
    if completed_ids ≠ [] ∧ exclude_completed then
      dataset.filter (fun i => !(completed_ids.contains i.instance_id))
    else dataset
  dataset1.filter (fun i =>
    match predictions i.instance_id with
    | none => false
    | some p => !(p.model_patch == some "" || p.model_patch == none))

/- ### make_run_report (lines 671-794)

Only the bucket partition (lines 690-732) is embedded; the residual
containers/images enumeration and the JSON serialization consume external
engine state and do not bear on the claims. -/

/-- The outcome sets built by the reconciler loop. -/
structure RunReportSets where
  completed : Finset String
  incomplete : Finset String
  empty_patch : Finset String
  resolved : Finset String
  unresolved : Finset String
  error : Finset String

/-- The tag added to each bucket: `instance_id+"_version-"+str(instance['version'])`
(lines 706-732). -/
def vtag (i : TaskInstance) : String := i.instance_id ++ "_version-" ++ i.version

/-- One iteration of the reconciler loop (lines 702-732). -/
def classifyStep (predictions : String → Option Prediction)
    (reports : String → Option PredReport) (acc : RunReportSets)
    (i : TaskInstance) : RunReportSets :=
  match predictions i.instance_id with
  | none => { acc with incomplete := insert (vtag i) acc.incomplete }
  | some prediction =>
    if prediction.model_patch = some "" ∨ prediction.model_patch = none then
      { acc with empty_patch := insert (vtag i) acc.empty_patch }
    else
      match reports i.instance_id with
      | some report =>
        let acc := { acc with completed := insert (vtag i) acc.completed }
        if report.resolved then { acc with resolved := insert (vtag i) acc.resolved }
        else { acc with unresolved := insert (vtag i) acc.unresolved }
      | none => { acc with error := insert (vtag i) acc.error }

/-- Embedding of the bucket partition of `make_run_report` (lines 690-732);
`reports id` is the parsed `report.json` entry for `id`, or `none` when the
file does not exist. -/
def make_run_report (predictions : String → Option Prediction)
    (reports : String → Option PredReport) (full_dataset : List TaskInstance) :
    RunReportSets :=
  full_dataset.foldl (classifyStep predictions reports) ⟨∅, ∅, ∅, ∅, ∅, ∅⟩

/- ### Leftmost-match characterization of the exit-code scan -/

lemma exitMarker_ne_nil : exitMarker ≠ [] := by decide

lemma digitAfterMarker_concat (c : Char) (b : List Char) :
    digitAfterMarker (exitMarker ++ c :: b) = if c.isDigit then some c else none := by
  have hpre : exitMarker.isPrefixOf (exitMarker ++ c :: b) = true :=
    List.isPrefixOf_iff_prefix.mpr (List.prefix_append _ _)
  unfold digitAfterMarker
  simp [hpre, List.drop_left]

lemma digitAfterMarker_eq_some {s : List Char} {c : Char}
    (h : digitAfterMarker s = some c) :
    c.isDigit = true ∧ ∃ b, s = exitMarker ++ c :: b := by
  unfold digitAfterMarker at h
  by_cases hpre : exitMarker.isPrefixOf s
  · obtain ⟨t, ht⟩ := List.isPrefixOf_iff_prefix.mp hpre
    rw [hpre] at h
    simp only [if_true] at h
    rw [← ht, List.drop_left] at h
    cases t with
    | nil => simp at h
    | cons d rest =>
      by_cases hd : d.isDigit
      · simp [hd] at h
        subst h
        exact ⟨hd, rest, ht.symm⟩
      · simp [hd] at h
  · simp [hpre] at h

/-- The captured digit of the first regex match: `findExitDigit s = some c`
holds exactly when `s` decomposes around a marker-plus-digit occurrence of
digit `c` that is leftmost among all marker-plus-digit occurrences. -/
theorem findExitDigit_eq_some_iff (s : List Char) (c : Char) :
    findExitDigit s = some c ↔
      ∃ a b, s = a ++ (exitMarker ++ c :: b) ∧ c.isDigit = true ∧
        ∀ a2 c2 b2, s = a2 ++ (exitMarker ++ c2 :: b2) → c2.isDigit = true →
          a.length ≤ a2.length := by
  induction s with
  | nil =>
    simp only [findExitDigit]
    constructor
    · intro h; cases h
    · rintro ⟨a, b, hs, -, -⟩
      exfalso
      cases a with
      | nil => exact exitMarker_ne_nil (List.append_eq_nil.mp (List.append_eq_nil.mp hs.symm).2).1
      | cons y t => cases hs
  | cons x rest ih =>
    rw [findExitDigit]
    cases hd : digitAfterMarker (x :: rest) with
    | some d =>
      obtain ⟨hdD, b0, h0⟩ := digitAfterMarker_eq_some hd
      constructor
      · intro h
        have hcd : d = c := by cases h; rfl
        subst hcd
        exact ⟨[], b0, by simpa using h0, hdD, fun a2 c2 b2 h2 hd2 => Nat.zero_le _⟩
      · rintro ⟨a, b, hs, hcD, hmin⟩
        have ha : a = [] :=
          List.length_eq_zero.mp (Nat.le_zero.mp (hmin [] d b0 (by simpa using h0) hdD))
        subst ha
        have : exitMarker ++ d :: b0 = exitMarker ++ c :: b := by
          rw [← h0]; simpa using hs
        have := List.append_cancel_left this
        cases this
        rfl
    | none =>
      have hno : ∀ c2 b2, x :: rest = exitMarker ++ c2 :: b2 → c2.isDigit = true → False := by
        intro c2 b2 h2 hd2
        have hc := digitAfterMarker_concat c2 b2
        rw [← h2, hd] at hc
        simp [hd2] at hc
      rw [ih]
      constructor
      · rintro ⟨a, b, hs, hcD, hmin⟩
        refine ⟨x :: a, b, by simp [hs], hcD, ?_⟩
        intro a2 c2 b2 h2 hd2
        cases a2 with
        | nil => exact absurd hd2 (fun hdig => hno c2 b2 (by simpa using h2) hdig)
        | cons y a2t =>
          have hx : x = y ∧ rest = a2t ++ (exitMarker ++ c2 :: b2) := by
            simpa using h2
          have := hmin a2t c2 b2 hx.2 hd2
          simpa [List.length_cons] using Nat.succ_le_succ this
      · rintro ⟨a, b, hs, hcD, hmin⟩
        cases a with
        | nil => exact absurd hcD (fun hdig => hno c b (by simpa using hs) hdig)
        | cons y at2 =>
          have hx : x = y ∧ rest = at2 ++ (exitMarker ++ c :: b) := by
            simpa using hs
          refine ⟨at2, b, hx.2, hcD, ?_⟩
          intro a2 c2 b2 h2 hd2
          have := hmin (x :: a2) c2 b2 (by simp [h2]) hd2
          exact Nat.succ_le_succ_iff.mp (by simpa [List.length_cons] using this)

/- ### Invariants of the pipeline stages -/

lemma execStage_releases (env : Env) (spec : TestSpec) (pred : Prediction)
    (mode : Mode) (fs : TaskFS) (tr : Trace) :
    (execStage env spec pred mode fs tr).2.2.releases = tr.releases := by
  cases hc : env.copy_eval_ok <;> cases he : env.eval_exec <;> cases mode <;>
    cases hg : env.grade_ok <;>
      simp [execStage, hc, he, hg, pipeLog, writeTestOutput]

lemma execStage_created (env : Env) (spec : TestSpec) (pred : Prediction)
    (mode : Mode) (fs : TaskFS) (tr : Trace) :
    (execStage env spec pred mode fs tr).2.2.created = tr.created := by
  cases hc : env.copy_eval_ok <;> cases he : env.eval_exec <;> cases mode <;>
    cases hg : env.grade_ok <;>
      simp [execStage, hc, he, hg, pipeLog, writeTestOutput]

lemma execStage_strict (env : Env) (spec : TestSpec) (pred : Prediction)
    (mode : Mode) (fs : TaskFS) (tr : Trace) :
    (execStage env spec pred mode fs tr).2.2.strict_attempts = tr.strict_attempts := by
  cases hc : env.copy_eval_ok <;> cases he : env.eval_exec <;> cases mode <;>
    cases hg : env.grade_ok <;>
      simp [execStage, hc, he, hg, pipeLog, writeTestOutput]

lemma execStage_fuzzy (env : Env) (spec : TestSpec) (pred : Prediction)
    (mode : Mode) (fs : TaskFS) (tr : Trace) :
    (execStage env spec pred mode fs tr).2.2.fuzzy_attempts = tr.fuzzy_attempts := by
  cases hc : env.copy_eval_ok <;> cases he : env.eval_exec <;> cases mode <;>
    cases hg : env.grade_ok <;>
      simp [execStage, hc, he, hg, pipeLog, writeTestOutput]

lemma execStage_eval_started (env : Env) (spec : TestSpec) (pred : Prediction)
    (mode : Mode) (fs : TaskFS) (tr : Trace) (hc : env.copy_eval_ok = true) :
    (execStage env spec pred mode fs tr).2.2.eval_started = true := by
  cases he : env.eval_exec <;> cases mode <;> cases hg : env.grade_ok <;>
    simp [execStage, hc, he, hg, pipeLog, writeTestOutput]

lemma execStage_report_of_error (env : Env) (spec : TestSpec) (pred : Prediction)
    (mode : Mode) (fs : TaskFS) (tr : Trace) (er : PipeErr)
    (h : (execStage env spec pred mode fs tr).1 = Except.error er) :
    (execStage env spec pred mode fs tr).2.1.report = fs.report := by
  cases hc : env.copy_eval_ok <;> cases he : env.eval_exec <;> cases mode <;>
    cases hg : env.grade_ok <;>
      simp_all [execStage, pipeLog, writeTestOutput]

lemma execStage_prev_apply (env : Env) (spec : TestSpec) (pred : Prediction)
    (fs : TaskFS) (tr : Trace) :
    (execStage env spec pred Mode.apply_patch fs tr).2.1.prev_output = fs.prev_output := by
  cases hc : env.copy_eval_ok <;> cases he : env.eval_exec <;> cases hg : env.grade_ok <;>
    simp [execStage, hc, he, hg, pipeLog, writeTestOutput]

lemma patchStage_releases (env : Env) (spec : TestSpec) (pred : Prediction)
    (mode : Mode) (fs : TaskFS) (tr : Trace) :
    (patchStage env spec pred mode fs tr).2.2.releases = tr.releases := by
  cases mode <;> cases hg : env.git_apply <;>
    simp [patchStage, hg, pipeLog, execStage_releases]
  case apply_patch.some v =>
    by_cases hz : v.exit_code = 0
    · simp [hz, execStage_releases]
    · cases hf : env.fuzzy_apply with
      | none => simp [hz, hf]
      | some v2 =>
        by_cases hz2 : v2.exit_code = 0 <;> simp [hz, hf, hz2, execStage_releases]

lemma patchStage_created (env : Env) (spec : TestSpec) (pred : Prediction)
    (mode : Mode) (fs : TaskFS) (tr : Trace) :
    (patchStage env spec pred mode fs tr).2.2.created = tr.created := by
  cases mode <;> cases hg : env.git_apply <;>
    simp [patchStage, hg, pipeLog, execStage_created]
  case apply_patch.some v =>
    by_cases hz : v.exit_code = 0
    · simp [hz, execStage_created]
    · cases hf : env.fuzzy_apply with
      | none => simp [hz, hf]
      | some v2 =>
        by_cases hz2 : v2.exit_code = 0 <;> simp [hz, hf, hz2, execStage_created]

lemma patchStage_report_of_error (env : Env) (spec : TestSpec) (pred : Prediction)
    (mode : Mode) (fs : TaskFS) (tr : Trace) (er : PipeErr)
    (h : (patchStage env spec pred mode fs tr).1 = Except.error er) :
    (patchStage env spec pred mode fs tr).2.1.report = fs.report := by
  cases mode with
  | not_apply_patch =>
    exact execStage_report_of_error env spec pred Mode.not_apply_patch fs tr er h
  | apply_patch =>
    rw [patchStage] at h ⊢
    cases hg : env.git_apply with
    | none => simp only [hg]
    | some v =>
      simp only [hg] at h ⊢
      by_cases hz : v.exit_code = 0
      · simp only [hz, ne_eq, not_true_eq_false, if_false] at h ⊢
        have h2 := execStage_report_of_error env spec pred Mode.apply_patch _ _ er h
        simpa [pipeLog] using h2
      · simp only [if_pos (show v.exit_code ≠ 0 from hz)] at h ⊢
        cases hf : env.fuzzy_apply with
        | none => simp only [hf]; simp [pipeLog]
        | some v2 =>
          simp only [hf] at h ⊢
          by_cases hz2 : v2.exit_code = 0
          · simp only [hz2, ne_eq, not_true_eq_false, if_false] at h ⊢
            have h2 := execStage_report_of_error env spec pred Mode.apply_patch _ _ er h
            simpa [pipeLog] using h2
          · simp only [if_pos (show v2.exit_code ≠ 0 from hz2)]
            simp [pipeLog]

lemma patchStage_prev_apply (env : Env) (spec : TestSpec) (pred : Prediction)
    (fs : TaskFS) (tr : Trace) :
    (patchStage env spec pred Mode.apply_patch fs tr).2.1.prev_output = fs.prev_output := by
  cases hg : env.git_apply with
  | none => simp [patchStage, hg]
  | some v =>
    by_cases hz : v.exit_code = 0
    · simp [patchStage, hg, hz, pipeLog, execStage_prev_apply]
    · cases hf : env.fuzzy_apply with
      | none => simp [patchStage, hg, hz, hf, pipeLog]
      | some v2 =>
        by_cases hz2 : v2.exit_code = 0 <;>
          simp [patchStage, hg, hz, hf, hz2, pipeLog, execStage_prev_apply]

lemma tryBodySetup_releases (env : Env) (spec : TestSpec) (pred : Prediction)
    (mode : Mode) (fs : TaskFS) :
    (tryBodySetup env spec pred mode fs).2.2.releases = 0 := by
  cases hb : env.build_ok <;> cases hs : env.start_ok <;> cases hc : env.copy_patch_ok <;>
    simp [tryBodySetup, hb, hs, hc, pipeLog, patchStage_releases, emptyTrace]

lemma pipeLog_report (mode : Mode) (line : String) (fs : TaskFS) :
    (pipeLog mode line fs).report = fs.report := by
  cases mode <;> rfl

lemma pipeLog_prev (mode : Mode) (line : String) (fs : TaskFS) :
    (pipeLog mode line fs).prev_output = fs.prev_output := by
  cases mode <;> rfl

lemma pipeLog_after (mode : Mode) (line : String) (fs : TaskFS) :
    (pipeLog mode line fs).after_output = fs.after_output := by
  cases mode <;> rfl

lemma tryBodySetup_report_of_error (env : Env) (spec : TestSpec) (pred : Prediction)
    (mode : Mode) (fs : TaskFS) (er : PipeErr)
    (h : (tryBodySetup env spec pred mode fs).1 = Except.error er) :
    (tryBodySetup env spec pred mode fs).2.1.report = fs.report := by
  cases hb : env.build_ok with
  | false => simp [tryBodySetup, hb]
  | true =>
    cases hs : env.start_ok with
    | false => simp [tryBodySetup, hb, hs]
    | true =>
      cases hc : env.copy_patch_ok with
      | false => simp [tryBodySetup, hb, hs, hc, pipeLog_report]
      | true =>
        simp only [tryBodySetup, hb, hs, hc] at h ⊢
        simp only [Bool.true_eq_false, if_false] at h ⊢
        rw [patchStage_report_of_error _ _ _ _ _ _ _ h]
        simp [pipeLog_report]

lemma tryBodySetup_prev_apply (env : Env) (spec : TestSpec) (pred : Prediction)
    (fs : TaskFS) :
    (tryBodySetup env spec pred Mode.apply_patch fs).2.1.prev_output = fs.prev_output := by
  cases hb : env.build_ok <;> cases hs : env.start_ok <;> cases hc : env.copy_patch_ok <;>
    simp [tryBodySetup, hb, hs, hc, pipeLog, patchStage_prev_apply]

lemma finishSetup_fs (instance_id : String) (rm_image : Bool) (body : BodyOut) :
    (finishSetup instance_id rm_image body).fs = body.2.1 := by
  obtain ⟨res, fs, tr⟩ := body
  cases res <;> cases htr : tr.created <;> cases rm_image <;>
    simp [finishSetup, cleanup_container, remove_image, htr]

lemma finishSetup_err (instance_id : String) (rm_image : Bool) (res : Except PipeErr (Option PredReport))
    (fs : TaskFS) (tr : Trace) :
    (finishSetup instance_id rm_image (res, fs, tr)).err =
      (match res with | Except.ok _ => none | Except.error e => some e) := by
  cases res <;> cases htr : tr.created <;> cases rm_image <;>
    simp [finishSetup, cleanup_container, remove_image, htr]

lemma finishSetup_ret (instance_id : String) (rm_image : Bool) (res : Except PipeErr (Option PredReport))
    (fs : TaskFS) (tr : Trace) :
    (finishSetup instance_id rm_image (res, fs, tr)).ret =
      (match res with | Except.ok report => some (instance_id, report) | Except.error _ => none) := by
  cases res <;> cases htr : tr.created <;> cases rm_image <;>
    simp [finishSetup, cleanup_container, remove_image, htr]

lemma finishSetup_escaped (instance_id : String) (rm_image : Bool) (body : BodyOut) :
    (finishSetup instance_id rm_image body).escaped = false := by
  obtain ⟨res, fs, tr⟩ := body
  cases res <;> cases htr : tr.created <;> cases rm_image <;>
    simp [finishSetup, cleanup_container, remove_image, htr]

lemma finishSetup_created (instance_id : String) (rm_image : Bool) (body : BodyOut) :
    (finishSetup instance_id rm_image body).tr.created = body.2.2.created := by
  obtain ⟨res, fs, tr⟩ := body
  cases res <;> cases htr : tr.created <;> cases rm_image <;>
    simp [finishSetup, cleanup_container, remove_image, htr]

lemma finishSetup_releases (instance_id : String) (rm_image : Bool) (body : BodyOut) :
    (finishSetup instance_id rm_image body).tr.releases =
      body.2.2.releases + (if body.2.2.created then 1 else 0) := by
  obtain ⟨res, fs, tr⟩ := body
  cases res <;> cases htr : tr.created <;> cases rm_image <;>
    simp [finishSetup, cleanup_container, remove_image, htr]

lemma finishSetup_image_removals (instance_id : String) (rm_image : Bool) (body : BodyOut) :
    (finishSetup instance_id rm_image body).tr.image_removals =
      body.2.2.image_removals + (if rm_image then 1 else 0) := by
  obtain ⟨res, fs, tr⟩ := body
  cases res <;> cases htr : tr.created <;> cases rm_image <;>
    simp [finishSetup, cleanup_container, remove_image, htr]

lemma finishSetup_strict (instance_id : String) (rm_image : Bool) (body : BodyOut) :
    (finishSetup instance_id rm_image body).tr.strict_attempts = body.2.2.strict_attempts := by
  obtain ⟨res, fs, tr⟩ := body
  cases res <;> cases htr : tr.created <;> cases rm_image <;>
    simp [finishSetup, cleanup_container, remove_image, htr]

lemma finishSetup_fuzzy (instance_id : String) (rm_image : Bool) (body : BodyOut) :
    (finishSetup instance_id rm_image body).tr.fuzzy_attempts = body.2.2.fuzzy_attempts := by
  obtain ⟨res, fs, tr⟩ := body
  cases res <;> cases htr : tr.created <;> cases rm_image <;>
    simp [finishSetup, cleanup_container, remove_image, htr]

lemma finishSetup_eval_started (instance_id : String) (rm_image : Bool) (body : BodyOut) :
    (finishSetup instance_id rm_image body).tr.eval_started = body.2.2.eval_started := by
  obtain ⟨res, fs, tr⟩ := body
  cases res <;> cases htr : tr.created <;> cases rm_image <;>
    simp [finishSetup, cleanup_container, remove_image, htr]

lemma runAfterPatch_releases (env : Env) (spec : TestSpec) (pred : Prediction)
    (fs : TaskFS) (tr : Trace) :
    (runAfterPatch env spec pred fs tr).2.2.releases = tr.releases := by
  cases hd : env.git_diff <;> cases hc : env.copy_eval_ok <;> cases he : env.eval_exec <;>
    simp [runAfterPatch, hd, hc, he, runLog]

lemma runAfterPatch_created (env : Env) (spec : TestSpec) (pred : Prediction)
    (fs : TaskFS) (tr : Trace) :
    (runAfterPatch env spec pred fs tr).2.2.created = tr.created := by
  cases hd : env.git_diff <;> cases hc : env.copy_eval_ok <;> cases he : env.eval_exec <;>
    simp [runAfterPatch, hd, hc, he, runLog]

lemma runPatchStage_releases (env : Env) (spec : TestSpec) (pred : Prediction)
    (fs : TaskFS) (tr : Trace) :
    (runPatchStage env spec pred fs tr).2.2.releases = tr.releases := by
  by_cases hnone : pred.model_patch = some "none"
  · simp [runPatchStage, hnone, runAfterPatch_releases]
  · cases hg : env.git_apply with
    | none => simp [runPatchStage, hnone, hg]
    | some v =>
      by_cases hz : v.exit_code = 0
      · simp [runPatchStage, hnone, hg, hz, runLog, runAfterPatch_releases]
      · cases hf : env.fuzzy_apply with
        | none => simp [runPatchStage, hnone, hg, hz, hf, runLog]
        | some v2 =>
          by_cases hz2 : v2.exit_code = 0 <;>
            simp [runPatchStage, hnone, hg, hz, hf, hz2, runLog, runAfterPatch_releases]

lemma runPatchStage_created (env : Env) (spec : TestSpec) (pred : Prediction)
    (fs : TaskFS) (tr : Trace) :
    (runPatchStage env spec pred fs tr).2.2.created = tr.created := by
  by_cases hnone : pred.model_patch = some "none"
  · simp [runPatchStage, hnone, runAfterPatch_created]
  · cases hg : env.git_apply with
    | none => simp [runPatchStage, hnone, hg]
    | some v =>
      by_cases hz : v.exit_code = 0
      · simp [runPatchStage, hnone, hg, hz, runLog, runAfterPatch_created]
      · cases hf : env.fuzzy_apply with
        | none => simp [runPatchStage, hnone, hg, hz, hf, runLog]
        | some v2 =>
          by_cases hz2 : v2.exit_code = 0 <;>
            simp [runPatchStage, hnone, hg, hz, hf, hz2, runLog, runAfterPatch_created]

lemma tryBodyRun_releases (env : Env) (spec : TestSpec) (pred : Prediction) (fs : TaskFS) :
    (tryBodyRun env spec pred fs).2.2.releases = 0 := by
  cases hb : env.build_ok <;> cases hs : env.start_ok <;> cases hc : env.copy_patch_ok <;>
    simp [tryBodyRun, hb, hs, hc, runLog, runPatchStage_releases, emptyTrace]

/- ### Shared concrete fixtures -/

def spec0 : TestSpec :=
  { instance_id := "i1", patch := some "diff", eval_script := "script",
    instance_image_key := "img:i1" }

def pred0 : Prediction :=
  { instance_id := "i1", model_patch := some "diff", model_name_or_path := "m" }

def inst0 : TaskInstance := { instance_id := "i1", version := "1" }

def envOK : Env := {}

/- ### C1 -/

/-- C1: in both `run_instance_setup` and `run_instance`, on every exit path
(success, patch-application failure, execution timeout, grading failure, or
any unexpected exception injected at any step) the container acquired for the
task is released exactly once before the invocation returns — the trace shows
one release when a container was created and none otherwise — and releasing
is a safe no-op when no container was ever created (the resource variable is
still null). -/
theorem C1_container_release_discipline :
    (∀ (env : Env) (spec : TestSpec) (pred : Prediction) (rm_image force_rebuild : Bool)
        (mode : Mode) (fs : TaskFS),
      (run_instance_setup env spec pred rm_image force_rebuild mode fs).tr.releases =
        (if (run_instance_setup env spec pred rm_image force_rebuild mode fs).tr.created
          then 1 else 0))
    ∧ (∀ (env : Env) (spec : TestSpec) (pred : Prediction) (rm_image force_rebuild : Bool)
        (fs : TaskFS),
      (run_instance env spec pred rm_image force_rebuild fs).tr.releases =
        (if (run_instance env spec pred rm_image force_rebuild fs).tr.created
          then 1 else 0))
    ∧ (∀ tr : Trace, cleanup_container none tr = tr) := by
  refine ⟨?_, ?_, fun tr => rfl⟩
  · intro env spec pred rm_image force_rebuild mode fs
    cases hrep : fs.report with
    | some r => simp [run_instance_setup, hrep, emptyTrace]
    | none =>
      cases hsetup : env.setup_ok with
      | false => simp [run_instance_setup, hrep, hsetup, emptyTrace]
      | true =>
        simp only [run_instance_setup, hrep, hsetup, Bool.true_eq_false, if_false]
        rw [finishSetup_releases, finishSetup_created, tryBodySetup_releases]
        exact Nat.zero_add _
  · intro env spec pred rm_image force_rebuild fs
    cases hrep : fs.report with
    | some r => simp [run_instance, hrep, emptyTrace]
    | none =>
      cases hsetup : env.setup_ok with
      | false => simp [run_instance, hrep, hsetup, emptyTrace]
      | true =>
        simp only [run_instance, hrep, hsetup, Bool.true_eq_false, if_false]
        rw [finishSetup_releases, finishSetup_created, tryBodyRun_releases]
        exact Nat.zero_add _

/- ### C2 -/

/-- C2: if a durable `report.json` already exists when the pipeline is
invoked, the invocation returns the stored record with the durable state
unchanged, zero container operations and no exception; in particular a
durably written record is never overwritten, and re-running the completed
task (any second oracle) yields the identical record again with zero
container operations. -/
theorem C2_idempotent_resumption (env env2 : Env) (spec : TestSpec) (pred : Prediction)
    (rm_image force_rebuild : Bool) (mode : Mode) (fs : TaskFS) (r : PredReport)
    (h : fs.report = some r) :
    run_instance_setup env spec pred rm_image force_rebuild mode fs =
      { ret := some (spec.instance_id, some r), fs := fs, tr := emptyTrace,
        err := none, escaped := false }
    ∧ (run_instance_setup env spec pred rm_image force_rebuild mode fs).tr.docker_ops = 0
    ∧ (run_instance_setup env spec pred rm_image force_rebuild mode fs).fs = fs
    ∧ run_instance_setup env2 spec pred rm_image force_rebuild mode
        ((run_instance_setup env spec pred rm_image force_rebuild mode fs).fs) =
      { ret := some (spec.instance_id, some r), fs := fs, tr := emptyTrace,
        err := none, escaped := false } := by
  have key : ∀ e : Env,
      run_instance_setup e spec pred rm_image force_rebuild mode fs =
        { ret := some (spec.instance_id, some r), fs := fs, tr := emptyTrace,
          err := none, escaped := false } := by
    intro e
    simp [run_instance_setup, h]
  have hfs : (run_instance_setup env spec pred rm_image force_rebuild mode fs).fs = fs := by
    rw [key env]
  refine ⟨key env, by rw [key env]; rfl, hfs, ?_⟩
  rw [hfs]
  exact key env2

def r0 : PredReport :=
  { patch_is_None := false, patch_exists := true
    patch_successfully_applied := true, resolved := true }

/-- C2 witness: concrete completed state, concrete pipeline inputs. -/
theorem C2_idempotent_resumption_witness :
    run_instance_setup envOK spec0 pred0 true false Mode.apply_patch
        { report := some r0 } =
      { ret := some ("i1", some r0), fs := { report := some r0 }, tr := emptyTrace,
        err := none, escaped := false } :=
  (C2_idempotent_resumption envOK envOK spec0 pred0 true false Mode.apply_patch
    { report := some r0 } r0 rfl).1

lemma execStage_image_removals (env : Env) (spec : TestSpec) (pred : Prediction)
    (mode : Mode) (fs : TaskFS) (tr : Trace) :
    (execStage env spec pred mode fs tr).2.2.image_removals = tr.image_removals := by
  cases hc : env.copy_eval_ok <;> cases he : env.eval_exec <;> cases mode <;>
    cases hg : env.grade_ok <;>
      simp [execStage, hc, he, hg, pipeLog, writeTestOutput]

lemma patchStage_image_removals (env : Env) (spec : TestSpec) (pred : Prediction)
    (mode : Mode) (fs : TaskFS) (tr : Trace) :
    (patchStage env spec pred mode fs tr).2.2.image_removals = tr.image_removals := by
  cases mode <;> cases hg : env.git_apply <;>
    simp [patchStage, hg, pipeLog, execStage_image_removals]
  case apply_patch.some v =>
    by_cases hz : v.exit_code = 0
    · simp [hz, execStage_image_removals]
    · cases hf : env.fuzzy_apply with
      | none => simp [hz, hf]
      | some v2 =>
        by_cases hz2 : v2.exit_code = 0 <;> simp [hz, hf, hz2, execStage_image_removals]

lemma tryBodySetup_image_removals (env : Env) (spec : TestSpec) (pred : Prediction)
    (mode : Mode) (fs : TaskFS) :
    (tryBodySetup env spec pred mode fs).2.2.image_removals = 0 := by
  cases hb : env.build_ok <;> cases hs : env.start_ok <;> cases hc : env.copy_patch_ok <;>
    simp [tryBodySetup, hb, hs, hc, pipeLog, patchStage_image_removals, emptyTrace]

lemma run_instance_setup_image_removals (env : Env) (spec : TestSpec) (pred : Prediction)
    (rm_image force_rebuild : Bool) (mode : Mode) (fs : TaskFS) :
    (run_instance_setup env spec pred rm_image force_rebuild mode fs).tr.image_removals =
      (if fs.report = none ∧ env.setup_ok = true then (if rm_image then 1 else 0) else 0) := by
  cases hrep : fs.report with
  | some r => simp [run_instance_setup, hrep, emptyTrace]
  | none =>
    cases hsetup : env.setup_ok with
    | false => simp [run_instance_setup, hrep, hsetup, emptyTrace]
    | true =>
      simp only [run_instance_setup, hrep, hsetup, Bool.true_eq_false, if_false]
      rw [finishSetup_image_removals, tryBodySetup_image_removals]
      simp

lemma run_instance_fail_to_pass_fst (envB envP : Env) (spec : TestSpec) (pred : Prediction)
    (rm_image force_rebuild : Bool) (fs : TaskFS) :
    (run_instance_fail_to_pass envB envP spec pred rm_image force_rebuild fs).1 =
      run_instance_setup envB spec pred false force_rebuild Mode.not_apply_patch fs := by
  rw [run_instance_fail_to_pass]
  split <;> rfl

/- ### C4 -/

/-- C4: the scheduler drains the full submitted set — one outcome entry per
submitted test spec, no matter which per-task oracles fail — and a change in
the fault environment or durable state of one task identity `k` cannot alter
the outcome of any task with a different identity. -/
theorem C4_failure_containment (se1 se2 : SchedEnv) (predictions : String → Prediction)
    (specs : List TestSpec) (cache_level : String)
    (clean force_rebuild is_judge_fail2pass : Bool) (k : String)
    (hB : ∀ id, id ≠ k → se1.envB id = se2.envB id)
    (hP : ∀ id, id ≠ k → se1.envP id = se2.envP id)
    (hF : ∀ id, id ≠ k → se1.fs0 id = se2.fs0 id) :
    (run_instances se1 predictions specs cache_level clean force_rebuild
        is_judge_fail2pass).length = specs.length
    ∧ ∀ (i : Nat) (spec : TestSpec), specs[i]? = some spec → spec.instance_id ≠ k →
        (run_instances se1 predictions specs cache_level clean force_rebuild
          is_judge_fail2pass)[i]? =
        (run_instances se2 predictions specs cache_level clean force_rebuild
          is_judge_fail2pass)[i]? := by
  constructor
  · cases is_judge_fail2pass <;> simp [run_instances]
  · intro i spec hi hne
    cases is_judge_fail2pass with
    | false =>
      simp only [run_instances, Bool.false_eq_true, if_false]
      rw [List.getElem?_map, List.getElem?_map, hi]
      simp only [Option.map_some']
      rw [hP spec.instance_id hne, hF spec.instance_id hne]
    | true =>
      simp only [run_instances, if_true]
      rw [List.getElem?_map, List.getElem?_map, hi]
      simp only [Option.map_some']
      rw [hB spec.instance_id hne, hP spec.instance_id hne, hF spec.instance_id hne]

def specBad : TestSpec :=
  { instance_id := "bad", patch := some "diff", eval_script := "script",
    instance_image_key := "img:bad" }

def predsAll : String → Prediction := fun id =>
  { instance_id := id, model_patch := some "diff", model_name_or_path := "m" }

def seW1 : SchedEnv := ⟨fun _ => envOK, fun _ => envOK, fun _ => {}⟩

def seW2 : SchedEnv :=
  ⟨fun _ => envOK,
   fun id => if id = "bad" then { build_ok := false } else envOK,
   fun _ => {}⟩

/-- C4 witness: breaking task "bad" in the second oracle leaves the first
task's outcome entry unchanged. -/
theorem C4_failure_containment_witness :
    (run_instances seW1 predsAll [spec0, specBad] "env" false false false)[0]? =
    (run_instances seW2 predsAll [spec0, specBad] "env" false false false)[0]? :=
  (C4_failure_containment seW1 seW2 predsAll [spec0, specBad] "env" false false false "bad"
      (fun id h => rfl)
      (fun id h => (if_neg h).symm)
      (fun id h => rfl)).2
    0 spec0 rfl (by decide)

/- ### C9 -/

/-- C9 counterexample: with the run's cache level set to `instance` — the
tier under which the spec-modelled policy retains instance images
(`should_remove_instance_image "instance" = false`) — the scheduler still
hands the pipeline a hardcoded removal flag and the task's image is removed
once, so per-task image removal is not determined by the cache-level
policy. -/
theorem C9_cache_policy_counterexample :
    should_remove_instance_image "instance" = false
    ∧ ((run_instances seW1 predsAll [spec0] "instance" false false false).map
        (fun p => p.1.tr.image_removals)) = [1] := by
  constructor
  · decide
  · simp only [run_instances, Bool.false_eq_true, if_false, List.map_map, List.map_cons,
      List.map_nil, Function.comp]
    rw [run_instance_setup_image_removals]
    simp [seW1, envOK]

/-- C9 amended: per-task image removal is independent of the cache-level
policy — `run_instances` produces identical outcomes for any two cache
levels, and in non-dual mode it invokes every pipeline with the removal flag
hardcoded to true — while in the dual-mode protocol the baseline call always
passes `rm_image=False` and therefore performs no image removal. -/
theorem C9_image_removal_policy :
    (∀ (se : SchedEnv) (predictions : String → Prediction) (specs : List TestSpec)
        (c1 c2 : String) (clean force_rebuild is_judge_fail2pass : Bool),
      run_instances se predictions specs c1 clean force_rebuild is_judge_fail2pass =
      run_instances se predictions specs c2 clean force_rebuild is_judge_fail2pass)
    ∧ (∀ (envB envP : Env) (spec : TestSpec) (pred : Prediction)
        (rm_image force_rebuild : Bool) (fs : TaskFS),
      ((run_instance_fail_to_pass envB envP spec pred rm_image force_rebuild
        fs).1).tr.image_removals = 0)
    ∧ (∀ (se : SchedEnv) (predictions : String → Prediction) (specs : List TestSpec)
        (cache_level : String) (clean force_rebuild : Bool),
      run_instances se predictions specs cache_level clean force_rebuild false =
        specs.map (fun spec =>
          (run_instance_setup (se.envP spec.instance_id) spec
            (predictions spec.instance_id) true force_rebuild Mode.apply_patch
            (se.fs0 spec.instance_id), none))) := by
  refine ⟨fun se p specs c1 c2 cl fr b => rfl, ?_, fun se p specs c cl fr => rfl⟩
  intro envB envP spec pred rm_image force_rebuild fs
  rw [run_instance_fail_to_pass_fst, run_instance_setup_image_removals]
  simp

/- ### Behavior of the patch stage per injected apply results -/

lemma patchStage_strict (env : Env) (spec : TestSpec) (pred : Prediction)
    (fs : TaskFS) (tr : Trace) :
    (patchStage env spec pred Mode.apply_patch fs tr).2.2.strict_attempts =
      tr.strict_attempts + 1 := by
  cases hg : env.git_apply with
  | none => simp [patchStage, hg]
  | some v =>
    by_cases hz : v.exit_code = 0
    · simp [patchStage, hg, hz, execStage_strict]
    · cases hf : env.fuzzy_apply with
      | none => simp [patchStage, hg, hz, hf]
      | some v2 =>
        by_cases hz2 : v2.exit_code = 0 <;> simp [patchStage, hg, hz, hf, hz2, execStage_strict]

lemma patchStage_fuzzy_zero (env : Env) (spec : TestSpec) (pred : Prediction)
    (fs : TaskFS) (tr : Trace) (g : ExecResult)
    (hg : env.git_apply = some g) (hz : g.exit_code = 0) :
    (patchStage env spec pred Mode.apply_patch fs tr).2.2.fuzzy_attempts =
      tr.fuzzy_attempts := by
  simp [patchStage, hg, hz, execStage_fuzzy]

lemma patchStage_fuzzy_one (env : Env) (spec : TestSpec) (pred : Prediction)
    (fs : TaskFS) (tr : Trace) (g : ExecResult)
    (hg : env.git_apply = some g) (hz : g.exit_code ≠ 0) :
    (patchStage env spec pred Mode.apply_patch fs tr).2.2.fuzzy_attempts =
      tr.fuzzy_attempts + 1 := by
  cases hf : env.fuzzy_apply with
  | none => simp [patchStage, hg, hz, hf]
  | some v2 =>
    by_cases hz2 : v2.exit_code = 0 <;> simp [patchStage, hg, hz, hf, hz2, execStage_fuzzy]

lemma patchStage_eval_started_strict (env : Env) (spec : TestSpec) (pred : Prediction)
    (fs : TaskFS) (tr : Trace) (g : ExecResult)
    (hg : env.git_apply = some g) (hz : g.exit_code = 0) (hce : env.copy_eval_ok = true) :
    (patchStage env spec pred Mode.apply_patch fs tr).2.2.eval_started = true := by
  simp only [patchStage, hg, hz]
  simp only [ne_eq, not_true_eq_false, if_false]
  exact execStage_eval_started _ _ _ _ _ _ hce

lemma patchStage_eval_started_fallback (env : Env) (spec : TestSpec) (pred : Prediction)
    (fs : TaskFS) (tr : Trace) (g f : ExecResult)
    (hg : env.git_apply = some g) (hz : g.exit_code ≠ 0)
    (hf : env.fuzzy_apply = some f) (hz2 : f.exit_code = 0)
    (hce : env.copy_eval_ok = true) :
    (patchStage env spec pred Mode.apply_patch fs tr).2.2.eval_started = true := by
  simp only [patchStage, hg, hf, if_pos (show g.exit_code ≠ 0 from hz)]
  simp only [hz2, ne_eq, not_true_eq_false, if_false]
  exact execStage_eval_started _ _ _ _ _ _ hce

lemma patchStage_bothfail (env : Env) (spec : TestSpec) (pred : Prediction)
    (fs : TaskFS) (tr : Trace) (g f : ExecResult)
    (hg : env.git_apply = some g) (hz : g.exit_code ≠ 0)
    (hf : env.fuzzy_apply = some f) (hz2 : f.exit_code ≠ 0) :
    (patchStage env spec pred Mode.apply_patch fs tr).1 =
      Except.error (PipeErr.evalError (APPLY_PATCH_FAIL ++ ":\n" ++ f.output))
    ∧ (patchStage env spec pred Mode.apply_patch fs tr).2.2.eval_started = tr.eval_started
    ∧ (patchStage env spec pred Mode.apply_patch fs tr).2.1.report = fs.report := by
  refine ⟨?_, ?_, ?_⟩ <;> simp [patchStage, hg, hz, hf, hz2, pipeLog_report]

/-- Under a healthy container setup, the try block reduces to the patch stage
over an enriched durable state with the same report, previous-mode output and
after-mode output, starting from the trace of the three setup operations. -/
lemma tryBodySetup_ok_reduce (env : Env) (spec : TestSpec) (pred : Prediction)
    (mode : Mode) (fs : TaskFS) (hb : env.build_ok = true) (hs : env.start_ok = true)
    (hcp : env.copy_patch_ok = true) :
    ∃ fs2, tryBodySetup env spec pred mode fs =
        patchStage env spec pred mode fs2
          { created := true, releases := 0, image_removals := 0, docker_ops := 1 + 1 + 1,
            strict_attempts := 0, fuzzy_attempts := 0, eval_started := false }
      ∧ fs2.report = fs.report ∧ fs2.prev_output = fs.prev_output
      ∧ fs2.after_output = fs.after_output := by
  refine ⟨pipeLog mode ("Intermediate patch for " ++ spec.instance_id ++
      " written, now applying to container...")
      { pipeLog mode ("Container for " ++ spec.instance_id ++ " started: " ++
          env.container_id) fs with patch_diff := some (spec.patch.getD "") },
    ?_, ?_, ?_, ?_⟩
  · simp [tryBodySetup, hb, hs, hcp, emptyTrace]
  · simp [pipeLog_report]
  · simp [pipeLog_prev]
  · simp [pipeLog_after]

lemma finishSetup_err2 (instance_id : String) (rm_image : Bool) (body : BodyOut) :
    (finishSetup instance_id rm_image body).err =
      (match body.1 with | Except.ok _ => none | Except.error e => some e) := by
  obtain ⟨res, fs, tr⟩ := body
  exact finishSetup_err instance_id rm_image res fs tr

lemma finishSetup_ret2 (instance_id : String) (rm_image : Bool) (body : BodyOut) :
    (finishSetup instance_id rm_image body).ret =
      (match body.1 with
        | Except.ok report => some (instance_id, report)
        | Except.error _ => none) := by
  obtain ⟨res, fs, tr⟩ := body
  exact finishSetup_ret instance_id rm_image res fs tr

/- ### C5 -/

def envBothFail : Env :=
  { git_apply := some { exit_code := 1, output := "STRICTDIAG" },
    fuzzy_apply := some { exit_code := 1, output := "FUZZDIAG" } }

/-- C5 counterexample: when the strict apply exits 1 with output STRICTDIAG
and the fuzzy apply exits 1 with output FUZZDIAG, the raised
EvaluationError carries only the fuzzy attempt's output — neither the
exception message nor the durable run log contains the strict attempt's
diagnostic, so the outcome does not carry the combined diagnostic output of
both attempts as claimed. -/
theorem C5_combined_diag_counterexample :
    (run_instance_setup envBothFail spec0 pred0 true false Mode.apply_patch {}).err =
      some (PipeErr.evalError (APPLY_PATCH_FAIL ++ ":\n" ++ "FUZZDIAG"))
    ∧ strContains (APPLY_PATCH_FAIL ++ ":\n" ++ "FUZZDIAG") "STRICTDIAG" = false
    ∧ strContains
        ((run_instance_setup envBothFail spec0 pred0 true false
          Mode.apply_patch {}).fs.run_after_log) "STRICTDIAG" = false := by
  refine ⟨by decide, by decide, by decide⟩

/-- C5 amended: for a patched-mode invocation with a healthy container
setup, exactly one strict apply is attempted; a fuzzy apply is attempted
exactly when the strict one exits non-zero, with no third attempt; the first
success proceeds to test execution; and when both fail, the test script is
never executed, no report is written, and the outcome carries the diagnostic
output of the fuzzy (second) attempt only. -/
theorem C5_patch_fallback_amended (env : Env) (spec : TestSpec) (pred : Prediction)
    (rm_image force_rebuild : Bool) (fs : TaskFS)
    (hrep : fs.report = none) (hsetup : env.setup_ok = true) (hb : env.build_ok = true)
    (hs : env.start_ok = true) (hcp : env.copy_patch_ok = true) :
    (∀ g, env.git_apply = some g → g.exit_code = 0 →
      (run_instance_setup env spec pred rm_image force_rebuild Mode.apply_patch
        fs).tr.strict_attempts = 1
      ∧ (run_instance_setup env spec pred rm_image force_rebuild Mode.apply_patch
          fs).tr.fuzzy_attempts = 0
      ∧ (env.copy_eval_ok = true →
          (run_instance_setup env spec pred rm_image force_rebuild Mode.apply_patch
            fs).tr.eval_started = true))
    ∧ (∀ g f, env.git_apply = some g → g.exit_code ≠ 0 →
        env.fuzzy_apply = some f → f.exit_code = 0 →
      (run_instance_setup env spec pred rm_image force_rebuild Mode.apply_patch
        fs).tr.strict_attempts = 1
      ∧ (run_instance_setup env spec pred rm_image force_rebuild Mode.apply_patch
          fs).tr.fuzzy_attempts = 1
      ∧ (env.copy_eval_ok = true →
          (run_instance_setup env spec pred rm_image force_rebuild Mode.apply_patch
            fs).tr.eval_started = true))
    ∧ (∀ g f, env.git_apply = some g → g.exit_code ≠ 0 →
        env.fuzzy_apply = some f → f.exit_code ≠ 0 →
      (run_instance_setup env spec pred rm_image force_rebuild Mode.apply_patch
        fs).tr.strict_attempts = 1
      ∧ (run_instance_setup env spec pred rm_image force_rebuild Mode.apply_patch
          fs).tr.fuzzy_attempts = 1
      ∧ (run_instance_setup env spec pred rm_image force_rebuild Mode.apply_patch
          fs).tr.eval_started = false
      ∧ (run_instance_setup env spec pred rm_image force_rebuild Mode.apply_patch
          fs).err = some (PipeErr.evalError (APPLY_PATCH_FAIL ++ ":\n" ++ f.output))
      ∧ (run_instance_setup env spec pred rm_image force_rebuild Mode.apply_patch
          fs).fs.report = none) := by
  obtain ⟨fs2, heq, hr2, hp2, ha2⟩ :=
    tryBodySetup_ok_reduce env spec pred Mode.apply_patch fs hb hs hcp
  have hout : run_instance_setup env spec pred rm_image force_rebuild Mode.apply_patch fs =
      finishSetup spec.instance_id rm_image
        (patchStage env spec pred Mode.apply_patch fs2
          { created := true, releases := 0, image_removals := 0, docker_ops := 1 + 1 + 1,
            strict_attempts := 0, fuzzy_attempts := 0, eval_started := false }) := by
    simp only [run_instance_setup, hrep, hsetup, Bool.true_eq_false, if_false, heq]
  refine ⟨?_, ?_, ?_⟩
  · intro g hg hz
    refine ⟨?_, ?_, ?_⟩
    · rw [hout, finishSetup_strict, patchStage_strict]
    · rw [hout, finishSetup_fuzzy, patchStage_fuzzy_zero _ _ _ _ _ g hg hz]
    · intro hce
      rw [hout, finishSetup_eval_started,
        patchStage_eval_started_strict _ _ _ _ _ g hg hz hce]
  · intro g f hg hz hf hz2
    refine ⟨?_, ?_, ?_⟩
    · rw [hout, finishSetup_strict, patchStage_strict]
    · rw [hout, finishSetup_fuzzy, patchStage_fuzzy_one _ _ _ _ _ g hg hz]
    · intro hce
      rw [hout, finishSetup_eval_started,
        patchStage_eval_started_fallback _ _ _ _ _ g f hg hz hf hz2 hce]
  · intro g f hg hz hf hz2
    have hbf := patchStage_bothfail env spec pred fs2
      { created := true, releases := 0, image_removals := 0, docker_ops := 1 + 1 + 1,
        strict_attempts := 0, fuzzy_attempts := 0, eval_started := false } g f hg hz hf hz2
    refine ⟨?_, ?_, ?_, ?_, ?_⟩
    · rw [hout, finishSetup_strict, patchStage_strict]
    · rw [hout, finishSetup_fuzzy, patchStage_fuzzy_one _ _ _ _ _ g hg hz]
    · rw [hout, finishSetup_eval_started, hbf.2.1]
    · rw [hout, finishSetup_err2, hbf.1]
    · rw [hout, finishSetup_fs, hbf.2.2, hr2, hrep]

/-- C5 witness: the all-healthy oracle performs exactly one strict apply. -/
theorem C5_patch_fallback_witness :
    (run_instance_setup envOK spec0 pred0 true false Mode.apply_patch
      {}).tr.strict_attempts = 1 :=
  ((C5_patch_fallback_amended envOK spec0 pred0 true false {} rfl rfl rfl rfl rfl).1
    { exit_code := 0, output := "" } rfl rfl).1

/- ### C6 -/

def predsC6 : String → Option Prediction := fun id => if id = "i1" then some pred0 else none

def reportsC6 : String → Option PredReport := fun id =>
  if id = "i1" then
    (run_instance_setup envBothFail spec0 pred0 true false Mode.apply_patch {}).fs.report
  else none

/-- C6 counterexample: after both apply strategies fail for task i1, no
report.json exists, and the reconciler places the task in the error bucket
and not in the unresolved bucket — contradicting the claim that it is
counted as completed-but-unresolved. -/
theorem C6_error_bucket_counterexample :
    "i1_version-1" ∈ (make_run_report predsC6 reportsC6 [inst0]).error
    ∧ "i1_version-1" ∉ (make_run_report predsC6 reportsC6 [inst0]).unresolved
    ∧ (run_instance_setup envBothFail spec0 pred0 true false
        Mode.apply_patch {}).fs.report = none := by
  refine ⟨by decide, by decide, by decide⟩

/-- C6 amended: whenever both patch-apply strategies fail for a (task,
submitter), the pipeline aborts with the EvaluationError carrying the
patch-apply-failed marker, writes no report.json, never reaches test
execution, performs exactly one strict and one fuzzy attempt (no retry
within the run), and the aggregate report counts the task in the error
bucket — not in the completed-unresolved bucket. -/
theorem C6_patch_not_applied_amended (env : Env) (spec : TestSpec) (pred : Prediction)
    (rm_image force_rebuild : Bool) (fs : TaskFS)
    (hrep : fs.report = none) (hsetup : env.setup_ok = true) (hb : env.build_ok = true)
    (hs : env.start_ok = true) (hcp : env.copy_patch_ok = true)
    (g f : ExecResult) (hg : env.git_apply = some g) (hz : g.exit_code ≠ 0)
    (hf : env.fuzzy_apply = some f) (hz2 : f.exit_code ≠ 0)
    (preds : String → Option Prediction) (p : Prediction) (inst : TaskInstance)
    (hid : inst.instance_id = spec.instance_id)
    (hpred : preds inst.instance_id = some p)
    (hne : ¬(p.model_patch = some "" ∨ p.model_patch = none)) :
    (run_instance_setup env spec pred rm_image force_rebuild Mode.apply_patch
      fs).fs.report = none
    ∧ (run_instance_setup env spec pred rm_image force_rebuild Mode.apply_patch
        fs).err = some (PipeErr.evalError (APPLY_PATCH_FAIL ++ ":\n" ++ f.output))
    ∧ (run_instance_setup env spec pred rm_image force_rebuild Mode.apply_patch
        fs).tr.strict_attempts = 1
    ∧ (run_instance_setup env spec pred rm_image force_rebuild Mode.apply_patch
        fs).tr.fuzzy_attempts = 1
    ∧ (run_instance_setup env spec pred rm_image force_rebuild Mode.apply_patch
        fs).tr.eval_started = false
    ∧ vtag inst ∈ (make_run_report preds
          (fun id => if id = inst.instance_id then
            (run_instance_setup env spec pred rm_image force_rebuild Mode.apply_patch
              fs).fs.report
           else none) [inst]).error
    ∧ vtag inst ∉ (make_run_report preds
          (fun id => if id = inst.instance_id then
            (run_instance_setup env spec pred rm_image force_rebuild Mode.apply_patch
              fs).fs.report
           else none) [inst]).unresolved := by
  obtain ⟨fs2, heq, hr2, hp2, ha2⟩ :=
    tryBodySetup_ok_reduce env spec pred Mode.apply_patch fs hb hs hcp
  have hout : run_instance_setup env spec pred rm_image force_rebuild Mode.apply_patch fs =
      finishSetup spec.instance_id rm_image
        (patchStage env spec pred Mode.apply_patch fs2
          { created := true, releases := 0, image_removals := 0, docker_ops := 1 + 1 + 1,
            strict_attempts := 0, fuzzy_attempts := 0, eval_started := false }) := by
    simp only [run_instance_setup, hrep, hsetup, Bool.true_eq_false, if_false, heq]
  have hbf := patchStage_bothfail env spec pred fs2
    { created := true, releases := 0, image_removals := 0, docker_ops := 1 + 1 + 1,
      strict_attempts := 0, fuzzy_attempts := 0, eval_started := false } g f hg hz hf hz2
  have hnone : (run_instance_setup env spec pred rm_image force_rebuild Mode.apply_patch
      fs).fs.report = none := by
    rw [hout, finishSetup_fs, hbf.2.2, hr2, hrep]
  refine ⟨hnone, ?_, ?_, ?_, ?_, ?_, ?_⟩
  · rw [hout, finishSetup_err2, hbf.1]
  · rw [hout, finishSetup_strict, patchStage_strict]
  · rw [hout, finishSetup_fuzzy, patchStage_fuzzy_one _ _ _ _ _ g hg hz]
  · rw [hout, finishSetup_eval_started, hbf.2.1]
  · simp [make_run_report, classifyStep, hpred, hne, hnone]
  · simp [make_run_report, classifyStep, hpred, hne, hnone]

/-- C6 witness: the concrete both-fail oracle leaves no durable report. -/
theorem C6_patch_not_applied_witness :
    (run_instance_setup envBothFail spec0 pred0 true false Mode.apply_patch
      {}).fs.report = none :=
  (C6_patch_not_applied_amended envBothFail spec0 pred0 true false {} rfl rfl rfl rfl rfl
    { exit_code := 1, output := "STRICTDIAG" } { exit_code := 1, output := "FUZZDIAG" }
    rfl (by decide) rfl (by decide) predsC6 pred0 inst0 rfl (by decide) (by decide)).1

/- ### C7 -/

lemma get_pred_report_resolved (pred : Prediction) (p : String)
    (hp : pred.model_patch = some p) (s log : String) :
    ((get_pred_report pred (some s) (some log)).resolved = true ↔
      findExitDigit s.data = some '0') := by
  unfold get_pred_report
  simp only [hp]
  by_cases hs : s = ""
  · subst hs
    simp only [Option.getD_some, ne_eq, not_true_eq_false, if_false]
    constructor
    · intro h
      exfalso
      split_ifs at h
    · intro h
      exact absurd h (by decide)
  · simp only [Option.getD_some, ne_eq, hs, not_false_eq_true, if_true]
    rcases hm : findExitDigit s.data with _ | c
    · simp only [hm]
      constructor
      · intro h
        exfalso
        split_ifs at h
      · intro h
        cases h
    · simp only [hm]
      by_cases hc : c = '0'
      · subst hc
        simp
      · simp only [if_neg hc]
        constructor
        · intro h
          exfalso
          split_ifs at h
        · intro h
          exact absurd (Option.some.inj h) hc

lemma strContains_empty_pass : strContains "" APPLY_PATCH_PASS = false := by decide

lemma get_pred_report_applied (pred : Prediction) (p : String)
    (hp : pred.model_patch = some p) (s log : String) :
    ((get_pred_report pred (some s) (some log)).patch_successfully_applied = true ↔
      strContains log APPLY_PATCH_PASS = true) := by
  unfold get_pred_report
  simp only [hp, Option.getD_some]
  rcases hm : findExitDigit s.data with _ | c
  · by_cases hl : log = "" <;> by_cases hs : s = "" <;>
      by_cases hpass : strContains log APPLY_PATCH_PASS = true <;>
        by_cases hfail : strContains log APPLY_PATCH_FAIL = true <;>
          simp [hl, hs, hm, hpass, hfail, strContains_empty_pass]
  · by_cases hc : c = '0' <;> by_cases hl : log = "" <;> by_cases hs : s = "" <;>
      by_cases hpass : strContains log APPLY_PATCH_PASS = true <;>
        by_cases hfail : strContains log APPLY_PATCH_FAIL = true <;>
          simp [hl, hs, hm, hc, hpass, hfail, strContains_empty_pass]

def outC7 : String := "echo OMNIGRIL_EXIT_CODE=1 echo OMNIGRIL_EXIT_CODE=0"

/-- C7 counterexample: this captured test output contains the numeric
exit-code marker with value 0, yet grading reports resolved=false, because
`re.search` takes the first match (here the marker with value 1) — so
"resolved=true iff the output contains the 0-valued marker" fails. -/
theorem C7_first_match_counterexample :
    strContains outC7 "echo OMNIGRIL_EXIT_CODE=0" = true
    ∧ (get_pred_report pred0 (some outC7) (some "")).resolved = false := by
  refine ⟨by decide, by decide⟩

/-- C7 amended: the grading function is total (modelled on file contents, it
returns a report for every input); a null model_patch yields
patch_is_None=true and stops; patch_successfully_applied is true exactly when
the run log contains the patch-applied marker; and resolved is true exactly
when the leftmost marker-plus-digit match in the test output carries the
digit 0 — the mere presence of a 0-valued marker after an earlier non-zero
marker does not suffice. -/
theorem C7_grading_amended (pred : Prediction) (s log : String) :
    (pred.model_patch = none →
      get_pred_report pred (some s) (some log) =
        { patch_is_None := true, patch_exists := false
          patch_successfully_applied := false, resolved := false })
    ∧ (∀ p, pred.model_patch = some p →
      ((get_pred_report pred (some s) (some log)).patch_successfully_applied = true ↔
        strContains log APPLY_PATCH_PASS = true)
      ∧ ((get_pred_report pred (some s) (some log)).resolved = true ↔
        ∃ a b, s.data = a ++ (exitMarker ++ '0' :: b) ∧
          ∀ a2 c2 b2, s.data = a2 ++ (exitMarker ++ c2 :: b2) → c2.isDigit = true →
            a.length ≤ a2.length)) := by
  constructor
  · intro h
    simp [get_pred_report, h]
  · intro p hp
    refine ⟨get_pred_report_applied pred p hp s log, ?_⟩
    rw [get_pred_report_resolved pred p hp s log, findExitDigit_eq_some_iff]
    simp [(by decide : ('0').isDigit = true)]

def predNone : Prediction :=
  { instance_id := "i1", model_patch := none, model_name_or_path := "m" }

/-- C7 witness: a null model_patch is reported as patch_is_None. -/
theorem C7_grading_witness :
    get_pred_report predNone (some "") (some "") =
      { patch_is_None := true, patch_exists := false
        patch_successfully_applied := false, resolved := false } :=
  (C7_grading_amended predNone "" "").1 rfl

/- ### C3 -/

/-- The five disjointness-relevant outcome classes of the reconciler
(`completed` is the union of resolved and unresolved and is not one of the
five partition buckets). -/
inductive Bucket where
  | incompleteB
  | emptyPatchB
  | resolvedB
  | unresolvedB
  | errorB
deriving DecidableEq

/-- Which bucket one loop iteration of `make_run_report` selects; it depends
only on the instance id (through the predictions and the stored reports). -/
def bucketOf (predictions : String → Option Prediction)
    (reports : String → Option PredReport) (id : String) : Bucket :=
  match predictions id with
  | none => Bucket.incompleteB
  | some p =>
    if p.model_patch = some "" ∨ p.model_patch = none then Bucket.emptyPatchB
    else
      match reports id with
      | some rep => if rep.resolved then Bucket.resolvedB else Bucket.unresolvedB
      | none => Bucket.errorB

def bset (B : RunReportSets) : Bucket → Finset String
  | Bucket.incompleteB => B.incomplete
  | Bucket.emptyPatchB => B.empty_patch
  | Bucket.resolvedB => B.resolved
  | Bucket.unresolvedB => B.unresolved
  | Bucket.errorB => B.error

lemma bset_classifyStep (preds : String → Option Prediction)
    (reps : String → Option PredReport) (acc : RunReportSets) (i : TaskInstance)
    (b : Bucket) :
    bset (classifyStep preds reps acc i) b =
      if bucketOf preds reps i.instance_id = b then insert (vtag i) (bset acc b)
      else bset acc b := by
  unfold classifyStep bucketOf
  rcases hp : preds i.instance_id with _ | p
  · cases b <;> simp [bset]
  · simp only []
    by_cases he : p.model_patch = some "" ∨ p.model_patch = none
    · simp only [if_pos he]
      cases b <;> simp [bset]
    · simp only [if_neg he]
      rcases hr : reps i.instance_id with _ | rep
      · cases b <;> simp [bset]
      · by_cases hres : rep.resolved = true
        · simp only [if_pos hres]
          cases b <;> simp [bset]
        · simp only [if_neg hres]
          cases b <;> simp [bset]

lemma mem_bset_foldl (preds : String → Option Prediction)
    (reps : String → Option PredReport) (ds : List TaskInstance)
    (acc : RunReportSets) (b : Bucket) (x : String) :
    (x ∈ bset (ds.foldl (classifyStep preds reps) acc) b ↔
      x ∈ bset acc b ∨ ∃ i, i ∈ ds ∧ vtag i = x ∧ bucketOf preds reps i.instance_id = b) := by
  induction ds generalizing acc with
  | nil => simp
  | cons j t ih =>
    rw [List.foldl_cons, ih, bset_classifyStep]
    by_cases hb : bucketOf preds reps j.instance_id = b
    · simp only [if_pos hb, Finset.mem_insert, List.mem_cons]
      constructor
      · rintro ((h | h) | ⟨i, hi, hv, hbi⟩)
        · exact Or.inr ⟨j, Or.inl rfl, h.symm, hb⟩
        · exact Or.inl h
        · exact Or.inr ⟨i, Or.inr hi, hv, hbi⟩
      · rintro (h | ⟨i, hi | hi, hv, hbi⟩)
        · exact Or.inl (Or.inr h)
        · subst hi
          exact Or.inl (Or.inl hv.symm)
        · exact Or.inr ⟨i, hi, hv, hbi⟩
    · simp only [if_neg hb, List.mem_cons]
      constructor
      · rintro (h | ⟨i, hi, hv, hbi⟩)
        · exact Or.inl h
        · exact Or.inr ⟨i, Or.inr hi, hv, hbi⟩
      · rintro (h | ⟨i, hi | hi, hv, hbi⟩)
        · exact Or.inl h
        · subst hi
          exact absurd hbi hb
        · exact Or.inr ⟨i, hi, hv, hbi⟩

lemma mem_make_run_report (preds : String → Option Prediction)
    (reps : String → Option PredReport) (ds : List TaskInstance) (b : Bucket)
    (x : String) :
    (x ∈ bset (make_run_report preds reps ds) b ↔
      ∃ i, i ∈ ds ∧ vtag i = x ∧ bucketOf preds reps i.instance_id = b) := by
  unfold make_run_report
  rw [mem_bset_foldl]
  cases b <;> simp [bset]

def instColA : TaskInstance := { instance_id := "a", version := "1_version-2" }

def instColB : TaskInstance := { instance_id := "a_version-1", version := "2" }

def predsC3 : String → Option Prediction := fun id =>
  if id = "a_version-1" then
    some { instance_id := "a_version-1", model_patch := some "diff", model_name_or_path := "m" }
  else none

/-- C3 counterexample: two distinct dataset rows — ids "a" (version
"1_version-2") and "a_version-1" (version "2") — produce the same bucket tag
"a_version-1_version-2"; the first has no prediction (incomplete) while the
second has a non-empty prediction and no report (error), so the same tag sits
in two buckets and the five buckets are not pairwise disjoint as claimed. -/
theorem C3_partition_counterexample :
    "a_version-1_version-2" ∈
      (make_run_report predsC3 (fun _ => none) [instColA, instColB]).incomplete
    ∧ "a_version-1_version-2" ∈
      (make_run_report predsC3 (fun _ => none) [instColA, instColB]).error := by
  refine ⟨by decide, by decide⟩

/-- C3 amended: provided the tag map `instance_id+"_version-"+version` does
not conflate distinct instance ids in the dataset (which any dataset whose
instance ids avoid the literal "_version-" satisfies), the reconciler's five
buckets — incomplete, empty_patch, resolved, unresolved, error — are
pairwise disjoint and their union is exactly the tag image of the full
target dataset. -/
theorem C3_bucket_partition_amended (preds : String → Option Prediction)
    (reps : String → Option PredReport) (ds : List TaskInstance)
    (hinj : ∀ i ∈ ds, ∀ j ∈ ds, vtag i = vtag j → i.instance_id = j.instance_id) :
    (∀ b1 b2, b1 ≠ b2 →
      Disjoint (bset (make_run_report preds reps ds) b1)
        (bset (make_run_report preds reps ds) b2))
    ∧ ((make_run_report preds reps ds).incomplete ∪
        (make_run_report preds reps ds).empty_patch ∪
        (make_run_report preds reps ds).resolved ∪
        (make_run_report preds reps ds).unresolved ∪
        (make_run_report preds reps ds).error) = (ds.map vtag).toFinset := by
  constructor
  · intro b1 b2 hne
    rw [Finset.disjoint_left]
    intro x h1 h2
    rw [mem_make_run_report] at h1 h2
    obtain ⟨i, hi, hvi, hbi⟩ := h1
    obtain ⟨j, hj, hvj, hbj⟩ := h2
    have hid : i.instance_id = j.instance_id := hinj i hi j hj (hvi.trans hvj.symm)
    rw [hid] at hbi
    exact hne (hbi.symm.trans hbj)
  · ext x
    simp only [Finset.mem_union, List.mem_toFinset, List.mem_map]
    constructor
    · rintro ((((h | h) | h) | h) | h)
      · obtain ⟨i, hi, hv, -⟩ := (mem_make_run_report preds reps ds Bucket.incompleteB x).mp h
        exact ⟨i, hi, hv⟩
      · obtain ⟨i, hi, hv, -⟩ := (mem_make_run_report preds reps ds Bucket.emptyPatchB x).mp h
        exact ⟨i, hi, hv⟩
      · obtain ⟨i, hi, hv, -⟩ := (mem_make_run_report preds reps ds Bucket.resolvedB x).mp h
        exact ⟨i, hi, hv⟩
      · obtain ⟨i, hi, hv, -⟩ := (mem_make_run_report preds reps ds Bucket.unresolvedB x).mp h
        exact ⟨i, hi, hv⟩
      · obtain ⟨i, hi, hv, -⟩ := (mem_make_run_report preds reps ds Bucket.errorB x).mp h
        exact ⟨i, hi, hv⟩
    · rintro ⟨i, hi, hv⟩
      cases hb : bucketOf preds reps i.instance_id with
      | incompleteB =>
        exact Or.inl (Or.inl (Or.inl (Or.inl
          ((mem_make_run_report preds reps ds Bucket.incompleteB x).mpr ⟨i, hi, hv, hb⟩))))
      | emptyPatchB =>
        exact Or.inl (Or.inl (Or.inl (Or.inr
          ((mem_make_run_report preds reps ds Bucket.emptyPatchB x).mpr ⟨i, hi, hv, hb⟩))))
      | resolvedB =>
        exact Or.inl (Or.inl (Or.inr
          ((mem_make_run_report preds reps ds Bucket.resolvedB x).mpr ⟨i, hi, hv, hb⟩)))
      | unresolvedB =>
        exact Or.inl (Or.inr
          ((mem_make_run_report preds reps ds Bucket.unresolvedB x).mpr ⟨i, hi, hv, hb⟩))
      | errorB =>
        exact Or.inr
          ((mem_make_run_report preds reps ds Bucket.errorB x).mpr ⟨i, hi, hv, hb⟩)

/-- C3 witness: a two-row dataset with distinct tags partitions cleanly. -/
theorem C3_bucket_partition_witness :
    ((make_run_report predsC6 reportsC6 [inst0,
        { instance_id := "i2", version := "1" }]).incomplete ∪
      (make_run_report predsC6 reportsC6 [inst0,
        { instance_id := "i2", version := "1" }]).empty_patch ∪
      (make_run_report predsC6 reportsC6 [inst0,
        { instance_id := "i2", version := "1" }]).resolved ∪
      (make_run_report predsC6 reportsC6 [inst0,
        { instance_id := "i2", version := "1" }]).unresolved ∪
      (make_run_report predsC6 reportsC6 [inst0,
        { instance_id := "i2", version := "1" }]).error) =
    (([inst0, { instance_id := "i2", version := "1" }].map vtag).toFinset) :=
  (C3_bucket_partition_amended predsC6 reportsC6
    [inst0, { instance_id := "i2", version := "1" }] (by decide)).2

/- ### C8 -/

lemma mem_get_dataset (preds : String → Option Prediction) (fsOf : String → TaskFS)
    (ds : List TaskInstance) (i : TaskInstance) :
    (i ∈ get_dataset_from_preds preds fsOf ds true ↔
      i ∈ ds ∧ (∃ p, preds i.instance_id = some p ∧
        ¬(p.model_patch = some "" ∨ p.model_patch = none)) ∧
      completedId preds fsOf i.instance_id = false) := by
  have hfinal : ∀ j : TaskInstance,
      ((match preds j.instance_id with
        | none => false
        | some p => !(p.model_patch == some "" || p.model_patch == none)) = true ↔
        (∃ p, preds j.instance_id = some p ∧
          ¬(p.model_patch = some "" ∨ p.model_patch = none))) := by
    intro j
    rcases hp : preds j.instance_id with _ | p <;> simp [hp]
  simp only [get_dataset_from_preds]
  by_cases hne : ((ds.filter (fun j => completedId preds fsOf j.instance_id)).map
      (fun j => j.instance_id)) ≠ []
  · rw [if_pos ⟨hne, trivial⟩, List.mem_filter, List.mem_filter]
    constructor
    · rintro ⟨⟨hids, hnc⟩, hf⟩
      refine ⟨hids, (hfinal i).mp hf, ?_⟩
      by_contra hcomp
      have hct : completedId preds fsOf i.instance_id = true := by
        revert hcomp
        cases completedId preds fsOf i.instance_id <;> simp
      have hmem : i.instance_id ∈ (ds.filter
          (fun j => completedId preds fsOf j.instance_id)).map (fun j => j.instance_id) :=
        List.mem_map.mpr ⟨i, List.mem_filter.mpr ⟨hids, hct⟩, rfl⟩
      simp only [Bool.not_eq_true'] at hnc
      simp at hnc
      exact hnc i hids hct rfl
    · rintro ⟨hids, hp, hcomp⟩
      refine ⟨⟨hids, ?_⟩, (hfinal i).mpr hp⟩
      have hnotmem : i.instance_id ∉ (ds.filter
          (fun j => completedId preds fsOf j.instance_id)).map (fun j => j.instance_id) := by
        intro hmem
        obtain ⟨j, hjf, hjid⟩ := List.mem_map.mp hmem
        obtain ⟨hjds, hjc⟩ := List.mem_filter.mp hjf
        rw [hjid] at hjc
        rw [hjc] at hcomp
        cases hcomp
      simp [hnotmem]
  · rw [if_neg (fun hc => hne hc.1), List.mem_filter]
    push_neg at hne
    constructor
    · rintro ⟨hids, hf⟩
      refine ⟨hids, (hfinal i).mp hf, ?_⟩
      by_contra hcomp
      have hct : completedId preds fsOf i.instance_id = true := by
        revert hcomp
        cases completedId preds fsOf i.instance_id <;> simp
      have hmem : i.instance_id ∈ (ds.filter
          (fun j => completedId preds fsOf j.instance_id)).map (fun j => j.instance_id) :=
        List.mem_map.mpr ⟨i, List.mem_filter.mpr ⟨hids, hct⟩, rfl⟩
      rw [hne] at hmem
      cases hmem
    · rintro ⟨hids, hp, -⟩
      exact ⟨hids, (hfinal i).mpr hp⟩

def fsOutputsOnly : TaskFS := { prev_output := some "o1", after_output := some "o2" }

def fsReportOnly : TaskFS := { report := some r0 }

/-- C8 counterexample: with both test-output files present but no
report.json, the task is excluded from submission; with report.json present
but the test-output files absent, the task is submitted — so presence of
report.json is not the marker the admission decision consults. -/
theorem C8_resumability_counterexample :
    (get_dataset_from_preds predsC6 (fun _ => fsOutputsOnly) [inst0] true = []
      ∧ fsOutputsOnly.report = none)
    ∧ (get_dataset_from_preds predsC6 (fun _ => fsReportOnly) [inst0] true = [inst0]
      ∧ fsReportOnly.report = some r0) := by
  refine ⟨⟨by decide, by decide⟩, ⟨by decide, by decide⟩⟩

/-- C8 amended: before scheduling, a task with a prediction is admitted
exactly when its candidate patch is neither empty nor null and not both
per-mode test-output files (test_output_prev_apply.txt and
test_output_after_apply.txt) already exist; these two files — not
report.json — are the resumability markers the admission decision consults,
and the decision is entirely independent of the stored report.json contents
(report.json is consulted only inside the pipeline invocation, which
short-circuits on it). -/
theorem C8_admission_markers_amended :
    (∀ (preds : String → Option Prediction) (fsOf : String → TaskFS)
        (ds : List TaskInstance) (i : TaskInstance),
      (i ∈ get_dataset_from_preds preds fsOf ds true ↔
        i ∈ ds ∧ (∃ p, preds i.instance_id = some p ∧
          ¬(p.model_patch = some "" ∨ p.model_patch = none)) ∧
        ¬((fsOf i.instance_id).prev_output.isSome = true ∧
          (fsOf i.instance_id).after_output.isSome = true)))
    ∧ (∀ (preds : String → Option Prediction) (fsOf : String → TaskFS)
        (rep : String → Option PredReport) (ds : List TaskInstance),
      get_dataset_from_preds preds fsOf ds true =
        get_dataset_from_preds preds (fun id => { fsOf id with report := rep id }) ds true) := by
  constructor
  · intro preds fsOf ds i
    rw [mem_get_dataset]
    constructor
    · rintro ⟨hids, ⟨p, hp, hne⟩, hcomp⟩
      refine ⟨hids, ⟨p, hp, hne⟩, ?_⟩
      rintro ⟨h1, h2⟩
      rw [completedId, hp, h1, h2] at hcomp
      cases hcomp
    · rintro ⟨hids, ⟨p, hp, hne⟩, hno⟩
      refine ⟨hids, ⟨p, hp, hne⟩, ?_⟩
      rw [completedId, hp]
      cases h1 : (fsOf i.instance_id).prev_output.isSome <;>
        cases h2 : (fsOf i.instance_id).after_output.isSome <;> simp_all
  · intro preds fsOf rep ds
    have hsame : (fun j : TaskInstance =>
        completedId preds (fun id => { fsOf id with report := rep id }) j.instance_id) =
        (fun j : TaskInstance => completedId preds fsOf j.instance_id) := by
      funext j
      rw [completedId, completedId]
    simp only [get_dataset_from_preds, hsame]

/- ### C10 -/

def envGradeFail : Env := { grade_ok := false }

/-- C10 counterexample: in a dual-mode run whose baseline succeeds and whose
patched run faults during grading (after the test output was persisted), no
report.json is written — yet the resumption filter excludes the task because
both test-output files exist, so the task is not eligible for re-execution
on a resumed run as the claim states. -/
theorem C10_resume_eligibility_counterexample :
    ((run_instance_fail_to_pass envOK envGradeFail spec0 pred0 true false {}).2.elim {}
      SetupOut.fs).report = none
    ∧ get_dataset_from_preds predsC6
        (fun _ => (run_instance_fail_to_pass envOK envGradeFail spec0 pred0 true
          false {}).2.elim {} SetupOut.fs) [inst0] true = [] := by
  refine ⟨by decide, by decide⟩

/-- C10 amended: if an exception is raised anywhere inside the try block of a
patched-mode `run_instance_setup` invocation (container build/start, patch
application, eval-script execution, or grading), no report.json is written —
the durable record state stays absent — so the reconciler classifies the
task into the error bucket; the baseline-mode output file is untouched, and
when it is absent (in particular, in single-mode runs from a fresh state)
the task is re-submitted on a resumed run.  (When both test-output files
were already persisted before the fault — the dual-mode grading-fault case —
the resumption filter excludes the task; see the recorded counterexample.) -/
theorem C10_error_leaves_no_report_amended (env : Env) (spec : TestSpec)
    (pred : Prediction) (rm_image force_rebuild : Bool) (fs : TaskFS)
    (hrep : fs.report = none)
    (herr : (run_instance_setup env spec pred rm_image force_rebuild Mode.apply_patch
      fs).err.isSome = true) :
    (run_instance_setup env spec pred rm_image force_rebuild Mode.apply_patch
      fs).fs.report = none
    ∧ (run_instance_setup env spec pred rm_image force_rebuild Mode.apply_patch
        fs).fs.prev_output = fs.prev_output
    ∧ (∀ (preds : String → Option Prediction) (p : Prediction) (inst : TaskInstance),
        inst.instance_id = spec.instance_id → preds inst.instance_id = some p →
        ¬(p.model_patch = some "" ∨ p.model_patch = none) →
        vtag inst ∈ (make_run_report preds
          (fun id => if id = inst.instance_id then
            (run_instance_setup env spec pred rm_image force_rebuild Mode.apply_patch
              fs).fs.report
           else none) [inst]).error)
    ∧ (fs.prev_output = none →
        ∀ (preds : String → Option Prediction) (p : Prediction) (inst : TaskInstance),
        inst.instance_id = spec.instance_id → preds inst.instance_id = some p →
        ¬(p.model_patch = some "" ∨ p.model_patch = none) →
        inst ∈ get_dataset_from_preds preds
          (fun _ => (run_instance_setup env spec pred rm_image force_rebuild
            Mode.apply_patch fs).fs) [inst] true) := by
  cases hsetup : env.setup_ok with
  | false =>
    exfalso
    rw [run_instance_setup] at herr
    simp only [hrep, hsetup] at herr
    simp at herr
  | true =>
    have hout : run_instance_setup env spec pred rm_image force_rebuild Mode.apply_patch fs =
        finishSetup spec.instance_id rm_image
          (tryBodySetup env spec pred Mode.apply_patch fs) := by
      simp only [run_instance_setup, hrep, hsetup, Bool.true_eq_false, if_false]
    rcases hb1 : (tryBodySetup env spec pred Mode.apply_patch fs).1 with e | r
    case ok =>
      exfalso
      rw [hout, finishSetup_err2, hb1] at herr
      simp at herr
    case error =>
      have hnone : (run_instance_setup env spec pred rm_image force_rebuild
          Mode.apply_patch fs).fs.report = none := by
        rw [hout, finishSetup_fs, tryBodySetup_report_of_error env spec pred
          Mode.apply_patch fs e hb1, hrep]
      have hprev : (run_instance_setup env spec pred rm_image force_rebuild
          Mode.apply_patch fs).fs.prev_output = fs.prev_output := by
        rw [hout, finishSetup_fs, tryBodySetup_prev_apply]
      refine ⟨hnone, hprev, ?_, ?_⟩
      · intro preds p inst hid hpred hne
        simp [make_run_report, classifyStep, hpred, hne, hnone]
      · intro hprev0 preds p inst hid hpred hne
        rw [mem_get_dataset]
        refine ⟨by simp, ⟨p, hpred, hne⟩, ?_⟩
        rw [completedId, hpred, hprev, hprev0]
        rfl

/-- C10 witness: a grading fault in a single patched-mode run from a fresh
state leaves no durable report. -/
theorem C10_error_leaves_no_report_witness :
    (run_instance_setup envGradeFail spec0 pred0 true false Mode.apply_patch
      {}).fs.report = none :=
  (C10_error_leaves_no_report_amended envGradeFail spec0 pred0 true false {} rfl
    (by decide)).1
